import Mathlib

/-!
Verification development for the geometric assembly validator of the
primitive-builder pipeline.  The Python sources embedded here are
`infinigen/primitive_builder/agents/validator.py`,
`infinigen/primitive_builder/agents/primitive_calls.py` and
`infinigen/primitive_builder/full_agent.py`.

Modelling conventions:
* Python float arithmetic on geometry is modelled over `ℚ` (every literal in
  the source is decimal, hence rational).  The trigonometric pattern checks
  of `full_agent.py` are modelled over `ℝ`, since they use `np.arctan2`.
* The library's `Rat.add`/`Rat.sub`/`Rat.mul`/`Rat.inv` are sealed
  `irreducible`, which would make the embedded program non-executable for
  the kernel; the model therefore uses the kernel-reducible equivalents
  `qadd`, `qsub`, `qmul`, `qhalf`, `qabs` below, each proved equal to the
  corresponding field operation, and writes constants as `mkRat` literals
  (`mkRat 1 10` is Python's `0.1`).
* Python dictionaries for components/operations are modelled as structures;
  a key that may be absent (`params`, `anchors`, `connections`) is an
  `Option` field.  The `transform`/`location` keys, which the claims never
  exercise as absent, are plain fields.
* A Python exception that the source catches locally is modelled by the
  handler's value; an exception that would propagate out of the validator
  is modelled with `Except.error`.
* `np.linalg.norm p < t` and `sqrt(dx^2+dy^2) > t` are modelled by the
  equivalent squared comparisons `distSq < t^2`, `dx^2+dy^2 > t^2`, keeping
  everything inside `ℚ`.
-/

/-! ### Kernel-reducible rational arithmetic -/

/-- Reducible `a + b` on `ℚ`. -/
def qadd (a b : ℚ) : ℚ := mkRat (a.num * b.den + b.num * a.den) (a.den * b.den)

/-- Reducible `a - b` on `ℚ`. -/
def qsub (a b : ℚ) : ℚ := mkRat (a.num * b.den - b.num * a.den) (a.den * b.den)

/-- Reducible `a * b` on `ℚ`. -/
def qmul (a b : ℚ) : ℚ := mkRat (a.num * b.num) (a.den * b.den)

/-- Reducible `a / 2` on `ℚ` (the only division the source performs). -/
def qhalf (a : ℚ) : ℚ := mkRat a.num (a.den * 2)

/-- Reducible `|a|` on `ℚ`. -/
def qabs (a : ℚ) : ℚ := if a < 0 then -a else a

/-! ### Data model -/

structure Vec3 where
  x : ℚ
  y : ℚ
  z : ℚ
deriving DecidableEq, Repr

structure Transform where
  location : Vec3
  rotation : Vec3
  scale : Vec3
deriving DecidableEq, Repr

/-- The shape-specific numeric `params` dict.  Each field models the
presence/absence of the corresponding key. -/
structure Params where
  height : Option ℚ
  radius : Option ℚ
  anchors : Option (List Vec3)
deriving DecidableEq, Repr

/-- One entry appended by `_ensure_support_connections` to
`op["connections"]` (primitive_calls.py). -/
structure ConnEntry where
  kind : String
  target : String
  point : Vec3
  orient : String
  flush : Bool
deriving DecidableEq, Repr

structure Operation where
  op : String
  params : Option Params
  transform : Transform
  connections : Option (List ConnEntry)
deriving DecidableEq, Repr

structure Component where
  name : String
  operations : List Operation
deriving DecidableEq, Repr

instance : DecidableEq (Except String (List Component)) := fun a b =>
  match a, b with
  | .ok x, .ok y =>
    if h : x = y then isTrue (by rw [h]) else isFalse (by simp [h])
  | .error e, .error f =>
    if h : e = f then isTrue (by rw [h]) else isFalse (by simp [h])
  | .ok _, .error _ => isFalse (by simp)
  | .error _, .ok _ => isFalse (by simp)

instance : DecidableEq (Except String ℚ) := fun a b =>
  match a, b with
  | .ok x, .ok y =>
    if h : x = y then isTrue (by rw [h]) else isFalse (by simp [h])
  | .error e, .error f =>
    if h : e = f then isTrue (by rw [h]) else isFalse (by simp [h])
  | .ok _, .error _ => isFalse (by simp)
  | .error _, .ok _ => isFalse (by simp)

instance : DecidableEq (Except String (List ℚ)) := fun a b =>
  match a, b with
  | .ok x, .ok y =>
    if h : x = y then isTrue (by rw [h]) else isFalse (by simp [h])
  | .error e, .error f =>
    if h : e = f then isTrue (by rw [h]) else isFalse (by simp [h])
  | .ok _, .error _ => isFalse (by simp)
  | .error _, .ok _ => isFalse (by simp)

instance : DecidableEq (Except String (Option ℚ)) := fun a b =>
  match a, b with
  | .ok x, .ok y =>
    if h : x = y then isTrue (by rw [h]) else isFalse (by simp [h])
  | .error e, .error f =>
    if h : e = f then isTrue (by rw [h]) else isFalse (by simp [h])
  | .ok _, .error _ => isFalse (by simp)
  | .error _, .ok _ => isFalse (by simp)

/-- Does the first list occur as a prefix of the second? -/
def charsStartWith : List Char → List Char → Bool
  | [], _ => true
  | _ :: _, [] => false
  | a :: as, b :: bs => a = b && charsStartWith as bs

/-- Does the first list occur as a contiguous sublist of the second? -/
def charsHaveInfix (n : List Char) : List Char → Bool
  | [] => charsStartWith n []
  | b :: bs => charsStartWith n (b :: bs) || charsHaveInfix n bs

/-- Python's substring test `needle in hay`. -/
def strContains (needle hay : String) : Bool :=
  charsHaveInfix needle.data hay.data

/-- Python's `str.lower()` (the names in this code are ASCII). -/
def lowerStr (s : String) : String :=
  ⟨s.data.map Char.toLower⟩

/-- Element at index `i`, with an irrelevant default for out-of-range
(indices used by the model are always in range). -/
def compAt (l : List Component) (i : ℕ) : Component :=
  (l.get? i).getD ⟨"", []⟩

/-! ### validator.py : `_get_lowest_point` and `_ensure_ground_contact` -/

/-- Keyword list of `_ensure_ground_contact` (validator.py line 205):
`["frame", "base", "leg"]`. -/
def groundKeywords : List String := ["frame", "base", "leg"]

/-- `any(base in c["name"].lower() for base in ["frame", "base", "leg"])`. -/
def isBaseComponent (c : Component) : Bool :=
  groundKeywords.any (fun k => strContains k (lowerStr c.name))

/-- `_get_lowest_point` (validator.py lines 384-421).  Accessing
`component["operations"][0]` on an empty list raises `IndexError`, and
`["params"]` / `["anchors"]` / `["height"]` / `["radius"]` on a missing key
raise `KeyError`; none of these is caught by the caller, so they are
modelled as `Except.error`. -/
def getLowestPoint (c : Component) : Except String ℚ :=
  match c.operations with
  | [] => .error "IndexError: operations"
  | o :: _ =>
    match o.params with
    | none => .error "KeyError: params"
    | some p =>
      let location := o.transform.location
      if o.op = "draw.bezier_curve" then
        match p.anchors with
        | none => .error "KeyError: anchors"
        | some as =>
          match as with
          | [] => .error "ValueError: min of empty sequence"
          | a :: rest => .ok (rest.foldl (fun m v => min m v.z) a.z)
      else if o.op = "mesh.build_cylinder_mesh" then
        match p.height with
        | none => .error "KeyError: height"
        | some h => .ok (qsub location.z (qhalf h))
      else if o.op = "mesh.build_box_mesh" then
        match p.height with
        | none => .error "KeyError: height"
        | some h => .ok (qsub location.z (qhalf h))
      else if o.op = "mesh.build_sphere_mesh" then
        match p.radius with
        | none => .error "KeyError: radius"
        | some r => .ok (qsub location.z r)
      else .ok location.z

/-- `min(base_lowest_points)`; the list is nonempty whenever it is used
(the `[]` value is never reached by `ensureGroundContact`). -/
def minList : List ℚ → ℚ
  | [] => 0
  | x :: xs => xs.foldl min x

/-- Adjustment of a base component (validator.py lines 213-225).  The body
is wrapped in `try/except`, so any failure leaves the component
unchanged. -/
def adjustBaseComp (adj : ℚ) (c : Component) : Component :=
  match c.operations with
  | [] => c
  | o :: rest =>
    if o.op = "draw.bezier_curve" then
      match o.params with
      | none => c
      | some p =>
        match p.anchors with
        | none => c
        | some as =>
          let p' : Params := { p with anchors := some (as.map (fun v => ⟨v.x, v.y, qsub v.z adj⟩)) }
          { c with operations := { o with params := some p' } :: rest }
    else
      { c with operations :=
          { o with transform :=
              { o.transform with location :=
                  { o.transform.location with z := qsub o.transform.location.z adj } } } :: rest }

/-- Adjustment of every non-base component (validator.py lines 228-234),
also inside `try/except`: only `location[2]` is shifted, anchors of a
non-base bezier component are NOT touched. -/
def adjustOtherComp (adj : ℚ) (c : Component) : Component :=
  match c.operations with
  | [] => c
  | o :: rest =>
    { c with operations :=
        { o with transform :=
            { o.transform with location :=
                { o.transform.location with z := qsub o.transform.location.z adj } } } :: rest }

/-- The list comprehension
`[self._get_lowest_point(base) for base in base_components]`: left to
right, first exception propagates. -/
def lowestList : List Component → Except String (List ℚ)
  | [] => .ok []
  | c :: cs =>
    match getLowestPoint c with
    | .error e => .error e
    | .ok v =>
      match lowestList cs with
      | .error e => .error e
      | .ok vs => .ok (v :: vs)

/-- `_ensure_ground_contact` (validator.py lines 199-236).  The lowest-point
computation is NOT inside a `try`, so a failing `_get_lowest_point`
propagates. -/
def ensureGroundContact (components : List Component) : Except String (List Component) :=
  let baseComps := components.filter (fun c => isBaseComponent c)
  if baseComps.isEmpty then .ok components
  else
    match lowestList baseComps with
    | .error e => .error e
    | .ok lows =>
      let adj := qsub (minList lows) 0
      .ok (components.map (fun c =>
        if isBaseComponent c then adjustBaseComp adj c else adjustOtherComp adj c))

/-! ### validator.py : `_get_connection_point` and helpers -/

structure Anchor where
  point : Vec3
  priority : ℤ
deriving DecidableEq, Repr

/-- The returned dict of `_get_connection_point`; key order (used by
Python's `max` over `values()`) is top, bottom, center. -/
structure AnchorMap where
  top : Option Anchor
  bottom : Option Anchor
  center : Anchor
deriving DecidableEq, Repr

/-- The `except` handler of `_get_connection_point` (lines 315-319): a
single center anchor at the origin, priority 0. -/
def centerOriginMap : AnchorMap := ⟨none, none, ⟨⟨0, 0, 0⟩, 0⟩⟩

/-- `_get_connection_point` (validator.py lines 238-319).  All exceptions
are caught inside the function: an empty `operations` list or a missing
`params` key on a recognized shape yields `centerOriginMap`. -/
def getConnectionPoint (c : Component) : AnchorMap :=
  match c.operations with
  | [] => centerOriginMap
  | o :: _ =>
    let location := o.transform.location
    let scale := o.transform.scale
    if o.op = "mesh.build_sphere_mesh" then
      match o.params with
      | none => centerOriginMap
      | some p =>
        let r := p.radius.getD (mkRat 1 2)
        let sr := qmul r scale.z
        ⟨some ⟨⟨location.x, location.y, qadd location.z sr⟩, 1⟩,
         some ⟨⟨location.x, location.y, qsub location.z sr⟩, 1⟩,
         ⟨location, 0⟩⟩
    else if o.op = "mesh.build_cylinder_mesh" then
      match o.params with
      | none => centerOriginMap
      | some p =>
        let h := p.height.getD 1
        let sh := qmul h scale.z
        ⟨some ⟨⟨location.x, location.y, qadd location.z (qhalf sh)⟩, 1⟩,
         some ⟨⟨location.x, location.y, qsub location.z (qhalf sh)⟩, 1⟩,
         ⟨location, 0⟩⟩
    else if o.op = "mesh.build_box_mesh" then
      match o.params with
      | none => centerOriginMap
      | some p =>
        let h := p.height.getD 1
        let sh := qmul h scale.z
        ⟨some ⟨⟨location.x, location.y, qadd location.z (qhalf sh)⟩, 1⟩,
         some ⟨⟨location.x, location.y, qsub location.z (qhalf sh)⟩, 1⟩,
         ⟨location, 0⟩⟩
    else ⟨none, none, ⟨location, 0⟩⟩

/-- `max(points.values(), key=lambda x: x["priority"])`: Python's `max`
returns the first element with maximal key, iterating the dict in insertion
order top, bottom, center. -/
def chosenAnchor (m : AnchorMap) : Anchor :=
  let vals :=
    (match m.top with | some a => [a] | none => []) ++
    (match m.bottom with | some a => [a] | none => []) ++ [m.center]
  match vals with
  | [] => m.center
  | v :: vs => vs.foldl (fun best a => if best.priority < a.priority then a else best) v

def distSq (p q : Vec3) : ℚ :=
  qadd (qadd (qmul (qsub p.x q.x) (qsub p.x q.x)) (qmul (qsub p.y q.y) (qsub p.y q.y)))
    (qmul (qsub p.z q.z) (qsub p.z q.z))

/-- `_are_points_connected` (lines 321-325): `norm(p1 - p2) < 0.01`,
modelled as the equivalent `distSq < 0.0001`. -/
def arePointsConnected (p q : Vec3) : Bool :=
  distSq p q < mkRat 1 10000

/-- `_snap_to_point` (validator.py lines 327-382).  Only components whose
name contains "Leg", "Seat" or "Top" are handled, and only the z
coordinate is changed; any other name falls through both branches and the
component is returned unchanged.  The whole body is in `try/except`, so
internal failures also return the component unchanged. -/
def snapToPoint (c : Component) (fromP toP : Vec3) : Component :=
  if strContains "Leg" c.name then
    match c.operations with
    | [] => c
    | o :: rest =>
      let zoff := qsub toP.z fromP.z
      if o.op = "draw.bezier_curve" then
        match o.params with
        | none => c
        | some p =>
          match p.anchors with
          | none => c
          | some as =>
            let p' : Params := { p with anchors := some (as.map (fun v => ⟨v.x, v.y, qadd v.z zoff⟩)) }
            { c with operations := { o with params := some p' } :: rest }
      else
        { c with operations :=
            { o with transform :=
                { o.transform with location :=
                    ⟨o.transform.location.x, o.transform.location.y,
                     qadd o.transform.location.z zoff⟩ } } :: rest }
  else if strContains "Seat" c.name || strContains "Top" c.name then
    match c.operations with
    | [] => c
    | o :: rest =>
      let zoff := qsub toP.z fromP.z
      { c with operations :=
          { o with transform :=
              { o.transform with location :=
                  ⟨o.transform.location.x, o.transform.location.y,
                   qadd o.transform.location.z zoff⟩ } } :: rest }
  else c

/-! ### validator.py : `_validate_connections` -/

/-- Shift only `location[2]` of the first operation (used for the seat /
table-top vertical snap, lines 145 and 158). -/
def addLocZ (c : Component) (dz : ℚ) : Component :=
  match c.operations with
  | [] => c
  | o :: rest =>
    { c with operations :=
        { o with transform :=
            { o.transform with location :=
                { o.transform.location with z := qadd o.transform.location.z dz } } } :: rest }

/-- Overwrite `location[0]` and `location[1]` of the first operation
(chair-leg recentering, lines 120-121). -/
def setLocXY (c : Component) (a b : ℚ) : Component :=
  match c.operations with
  | [] => c
  | o :: rest =>
    { c with operations :=
        { o with transform :=
            { o.transform with location := ⟨a, b, o.transform.location.z⟩ } } :: rest }

/-- Indices of the components whose name contains "Leg"
(`legs = [c for c in updated_components if "Leg" in c["name"]]`; Python
keeps object references, modelled here as the — name-stable — indices). -/
def legIdxList (l : List Component) : List ℕ :=
  (List.range l.length).filter (fun i => strContains "Leg" (compAt l i).name)

/-- The chair-branch leg loop (lines 110-123).  `leg_points["top"]` on a
map without a "top" key is an uncaught `KeyError`.  The horizontal test
`sqrt(dx^2+dy^2) > 0.1` is modelled as `dx^2+dy^2 > 0.01`.  Python both
mutates the leg in place (index `i`) and assigns it at the first index
with the same name. -/
def moveLegs (tb : Vec3) : List ℕ → List Component → Except String (List Component)
  | [], acc => .ok acc
  | i :: is, acc =>
    match acc.get? i with
    | none => moveLegs tb is acc
    | some leg =>
      match (getConnectionPoint leg).top with
      | none => .error "KeyError: top"
      | some lt =>
        if mkRat 1 100 <
            qadd (qmul (qsub lt.point.x tb.x) (qsub lt.point.x tb.x))
              (qmul (qsub lt.point.y tb.y) (qsub lt.point.y tb.y)) then
          let leg' := setLocXY leg tb.x tb.y
          let j := (acc.findIdx? (fun c => c.name = leg.name)).getD i
          moveLegs tb is ((acc.set i leg').set j leg')
        else moveLegs tb is acc

/-- FIRST phase of `_validate_connections` (lines 102-123): only when a
"Seat" component and at least one "Leg" component exist. -/
def chairPhase (l : List Component) : Except String (List Component) :=
  match l.find? (fun c => strContains "Seat" c.name) with
  | none => .ok l
  | some seat =>
    if (legIdxList l).isEmpty then .ok l
    else
      match (getConnectionPoint seat).bottom with
      | none => .error "KeyError: bottom"
      | some tb => moveLegs tb.point (legIdxList l) l

/-- Fold of the SECOND phase (lines 126-130): `highest_leg_z` starts at
`float("-inf")` in Python; `none` models that no leg has been seen yet
(`max(-inf, v) = v`). -/
def legTopFold : Option ℚ → List Component → Except String (Option ℚ)
  | acc, [] => .ok acc
  | acc, leg :: rest =>
    match (getConnectionPoint leg).top with
    | none => .error "KeyError: top"
    | some lt =>
      legTopFold (some (match acc with | none => lt.point.z | some m => max m lt.point.z)) rest

def highestLegZ (l : List Component) : Except String (Option ℚ) :=
  legTopFold none (l.filter (fun c => strContains "Leg" c.name))

/-- THIRD phase (lines 134-160): move the first "Seat" component (else the
first "Table_Top" component) vertically so its bottom anchor reaches
`highest_leg_z`.  When there is no leg, Python adds a `float("-inf")`
offset, which has no counterpart in `ℚ`; that branch is modelled as an
error and no theorem below depends on it. -/
def seatSnapPhase (l : List Component) (hz : Option ℚ) : Except String (List Component) :=
  match l.find? (fun c => strContains "Seat" c.name) with
  | some seat =>
    match (getConnectionPoint seat).bottom with
    | none => .error "KeyError: bottom"
    | some sb =>
      match hz with
      | none => .error "float -inf offset (no legs): outside the rational model"
      | some h =>
        let si := (l.findIdx? (fun c => c.name = seat.name)).getD 0
        .ok (l.set si (addLocZ seat (qsub h sb.point.z)))
  | none =>
    match l.find? (fun c => strContains "Table_Top" c.name) with
    | some tt =>
      match (getConnectionPoint tt).bottom with
      | none => .error "KeyError: bottom"
      | some tb =>
        match hz with
        | none => .error "float -inf offset (no legs): outside the rational model"
        | some h =>
          let ti := (l.findIdx? (fun c => c.name = tt.name)).getD 0
          .ok (l.set ti (addLocZ tt (qsub h tb.point.z)))
    | none => .ok l

/-- Anchor selection of the FOURTH phase (lines 181-186): a "Backrest"
component uses its bottom against the target's top (uncaught `KeyError`
when absent), every other component the highest-priority anchors. -/
def selectPoints (compName : String) (cps tps : AnchorMap) : Except String (Vec3 × Vec3) :=
  if strContains "Backrest" compName then
    match cps.bottom, tps.top with
    | some cb, some tt => .ok (cb.point, tt.point)
    | none, _ => .error "KeyError: bottom"
    | some _, none => .error "KeyError: top"
  else .ok ((chosenAnchor cps).point, (chosenAnchor tps).point)

/-- Inner target loop of the FOURTH phase (lines 173-195).  `comp_points`
is computed once before the loop (`cps` stays stale across targets), while
the component itself is read back mutated. -/
def snapTargets (cps : AnchorMap) (compName : String) (i : ℕ) :
    List String → List Component → Except String (List Component)
  | [], acc => .ok acc
  | tn :: ts, acc =>
    match acc.find? (fun c => c.name = tn) with
    | none => snapTargets cps compName i ts acc
    | some t =>
      match selectPoints compName cps (getConnectionPoint t) with
      | .error e => .error e
      | .ok (cp, tp) =>
        if arePointsConnected cp tp then snapTargets cps compName i ts acc
        else
          match acc.get? i with
          | none => snapTargets cps compName i ts acc
          | some comp => snapTargets cps compName i ts (acc.set i (snapToPoint comp cp tp))

/-- `"Leg" not in comp_name and "Seat" not in comp_name and "Table_Top"
not in comp_name` (line 164), negated. -/
def nameSkipsPhase4 (n : String) : Bool :=
  strContains "Leg" n || strContains "Seat" n || strContains "Table_Top" n

def phase4Entry (acc : List Component) (e : String × List String) :
    Except String (List Component) :=
  if nameSkipsPhase4 e.1 then .ok acc
  else
    match acc.findIdx? (fun c => c.name = e.1) with
    | none => .ok acc
    | some i =>
      match acc.get? i with
      | none => .ok acc
      | some comp => snapTargets (getConnectionPoint comp) e.1 i e.2 acc

/-- FOURTH phase (lines 163-196) over the connection map, an ordered list
of `(component name, target names)` pairs. -/
def phase4 : List (String × List String) → List Component → Except String (List Component)
  | [], acc => .ok acc
  | e :: es, acc =>
    match phase4Entry acc e with
    | .error msg => .error msg
    | .ok acc' => phase4 es acc'

/-- `_validate_connections` (validator.py lines 94-197). -/
def validateConnections (cm : List (String × List String)) (l : List Component) :
    Except String (List Component) :=
  match chairPhase l with
  | .error e => .error e
  | .ok l1 =>
    match highestLegZ l1 with
    | .error e => .error e
    | .ok hz =>
      match seatSnapPhase l1 hz with
      | .error e => .error e
      | .ok l2 => phase4 cm l2

/-- `validate_and_fix` (validator.py lines 11-28), with the connection map
— obtained from an external LLM call in the source — taken as a
parameter. -/
def validateAndFix (cm : List (String × List String)) (l : List Component) :
    Except String (List Component) :=
  match ensureGroundContact l with
  | .error e => .error e
  | .ok l1 => validateConnections cm l1

/-! ### primitive_calls.py : `_validate_connections` and helpers -/

/-- `_needs_ground_contact` (primitive_calls.py lines 591-595). -/
def needsGroundContact (c : Component) : Bool :=
  ["leg", "base", "stand", "foot", "support", "pedestal"].any
    (fun k => strContains k (lowerStr c.name))

/-- Truthiness of the `params` dict (`{}` and a missing key are falsy). -/
def paramsTruthy : Option Params → Bool
  | none => false
  | some p => p.height.isSome || p.radius.isSome || p.anchors.isSome

/-- `params.get("height", 0)`. -/
def heightOrZero : Option Params → ℚ
  | none => 0
  | some p => p.height.getD 0

/-- `_is_supporting` (primitive_calls.py lines 568-589): some pair of
operations is vertically aligned within 0.1 on x and y.  The `transform`
key is always present in the model, so the `if not support_transform:
continue` guard never fires. -/
def isSupporting (s t : Component) : Bool :=
  s.operations.any (fun so =>
    t.operations.any (fun tp =>
      paramsTruthy tp.params &&
      qabs (qsub so.transform.location.x tp.transform.location.x) < mkRat 1 10 &&
      qabs (qsub so.transform.location.y tp.transform.location.y) < mkRat 1 10))

/-- Result of the first pass of `_validate_connections` (primitive_calls.py
lines 506-523): ground components, supported names and supporting pairs,
all by index (Python keeps object references). -/
structure ScanResult where
  groundIdxs : List ℕ
  supportedNames : List String
  pairs : List (ℕ × ℕ)
deriving DecidableEq, Repr

/-- First pass.  A component is appended to `ground_components` before its
own operations are scanned, so the candidate supports for a supported
component are exactly the ground components at earlier (or equal) list
positions; `comp not in ground_components` is equivalent to the component
not being a ground component, since membership is by value and the name
decides groundness. -/
def scanPass (l : List Component) : ScanResult :=
  l.enum.foldl (fun st pr =>
    let i := pr.1
    let c := pr.2
    let g := if needsGroundContact c then st.groundIdxs ++ [i] else st.groundIdxs
    c.operations.foldl (fun st2 op =>
      if 0 < op.transform.location.z && !needsGroundContact c then
        { st2 with
          supportedNames := st2.supportedNames ++ [c.name],
          pairs := st2.pairs ++
            (g.filter (fun gi => isSupporting (compAt l gi) c)).map (fun gi => (gi, i)) }
      else st2) { st with groundIdxs := g }) ⟨[], [], []⟩

/-- `params["height"] = height`: when the operation has no `params` dict,
Python writes into the fresh `{}` returned by `.get`, so the write is
lost. -/
def pass2SetHeight (op : Operation) (h : ℚ) : Operation :=
  match op.params with
  | none => op
  | some p => { op with params := some { p with height := some h } }

/-- `transform["location"] = [x, y, height / 2]`. -/
def pass2SetLoc (op : Operation) (h : ℚ) : Operation :=
  { op with transform :=
      { op.transform with location :=
          ⟨op.transform.location.x, op.transform.location.y, qhalf h⟩ } }

/-- Second-pass body for a ground component with a supported partner
(primitive_calls.py lines 535-554): for every supported operation whose
`transform` and `params` are truthy, force `height = bottom_z` and
recenter `location` at `height / 2`; the last matching operation wins. -/
def supportedBottomFix (supported : Component) (op : Operation) : Operation :=
  supported.operations.foldl (fun o sop =>
    if paramsTruthy sop.params then
      let bz := qsub sop.transform.location.z (qhalf (heightOrZero sop.params))
      pass2SetLoc (pass2SetHeight o bz) bz
    else o) op

/-- Second-pass body for a ground component with no supported partner
(primitive_calls.py lines 555-559): `height = z * 2` and
`location[2] = height / 2` (which leaves `z` unchanged). -/
def standFix (op : Operation) : Operation :=
  let h := qmul op.transform.location.z 2
  let o1 := pass2SetHeight op h
  { o1 with transform :=
      { o1.transform with location := { o1.transform.location with z := qhalf h } } }

/-- Second pass (primitive_calls.py lines 525-559), over the ground
components in discovery order. -/
def groundFixPass (l : List Component) (st : ScanResult) : List Component :=
  st.groundIdxs.foldl (fun acc gi =>
    let c := compAt acc gi
    let c' := { c with operations := c.operations.map (fun op =>
      match (st.pairs.find? (fun pr => pr.1 = gi)).map Prod.snd with
      | some si => supportedBottomFix (compAt acc si) op
      | none => standFix op) }
    acc.set gi c') l

/-- Connection entries appended by `_ensure_support_connections`
(primitive_calls.py lines 609-625) for one operation located at `loc`. -/
def connEntriesFor (l : List Component) (loc : Vec3) : List ConnEntry :=
  l.foldl (fun es s =>
    if needsGroundContact s then
      es ++ s.operations.filterMap (fun sop =>
        if qabs (qsub sop.transform.location.x loc.x) < mkRat 1 10 &&
           qabs (qsub sop.transform.location.y loc.y) < mkRat 1 10 then
          some ⟨"surface_mount", s.name, loc, "vertical", true⟩
        else none)
    else es) []

/-- `_ensure_support_connections` (primitive_calls.py lines 597-625):
creates the `connections` key when absent, then appends one entry per
vertically aligned (ground component, operation) pair. -/
def ensureSupportConnections (l : List Component) (c : Component) : Component :=
  { c with operations := c.operations.map (fun op =>
      let base := op.connections.getD []
      { op with connections := some (base ++ connEntriesFor l op.transform.location) }) }

/-- Third pass (primitive_calls.py lines 561-564). -/
def supportConnPass (st : ScanResult) (l : List Component) : List Component :=
  (List.range l.length).foldl (fun acc i =>
    let c := compAt acc i
    if st.supportedNames.contains c.name then acc.set i (ensureSupportConnections acc c)
    else acc) l

/-- `_validate_connections` of primitive_calls.py (lines 498-566). -/
def pcValidateConnections (l : List Component) : List Component :=
  let st := scanPass l
  supportConnPass st (groundFixPass l st)

/-! ### full_agent.py : `_check_symmetry` and `_check_radial_arrangement` -/

/-- A position value of the `component_positions` dict, over `ℝ` (these
checks feed `np.arctan2`). -/
structure Pt3R where
  x : ℝ
  y : ℝ
  z : ℝ

/-- The x-axis mirror condition of `_check_symmetry` (full_agent.py line
188): `abs(pos1[0] + pos2[0]) < 0.1 and abs(pos1[1] - pos2[1]) < 0.1`. -/
def xMirrorMatch (p q : Pt3R) : Prop :=
  |p.x + q.x| < 1 / 10 ∧ |p.y - q.y| < 1 / 10

/-- The y-axis mirror condition of `_check_symmetry` (full_agent.py line
191). -/
def yMirrorMatch (p q : Pt3R) : Prop :=
  |p.y + q.y| < 1 / 10 ∧ |p.x - q.x| < 1 / 10

/-- `_check_symmetry` (full_agent.py lines 178-193) on the positions dict,
modelled as a key-value list with distinct keys: true iff some pair of
distinct keys matches the x-axis or the y-axis condition. -/
def checkSymmetry (ps : List (String × Pt3R)) : Prop :=
  2 ≤ ps.length ∧
    ∃ p1 ∈ ps, ∃ p2 ∈ ps, p1.1 ≠ p2.1 ∧ (xMirrorMatch p1.2 p2.2 ∨ yMirrorMatch p1.2 p2.2)

/-- `np.arctan2 y x`. -/
noncomputable def atan2 (y x : ℝ) : ℝ :=
  if 0 < x then Real.arctan (y / x)
  else if x < 0 then
    (if 0 ≤ y then Real.arctan (y / x) + Real.pi else Real.arctan (y / x) - Real.pi)
  else if 0 < y then Real.pi / 2
  else if y < 0 then -(Real.pi / 2)
  else 0

/-- Consecutive differences `[angles[i+1] - angles[i]]`. -/
def consecDiffs : List ℝ → List ℝ
  | a :: b :: rest => (b - a) :: consecDiffs (b :: rest)
  | _ => []

/-- `center = [0, 0, 0]` (full_agent.py line 202). -/
def radialCenter : Pt3R := ⟨0, 0, 0⟩

/-- `angles.sort()` (ascending). -/
noncomputable def sortAngles (angles : List ℝ) : List ℝ :=
  angles.insertionSort (fun a b => a ≤ b)

/-- The gap list: consecutive differences of the sorted angles, with the
last gap wrapped around `2π` (`2*np.pi - (angles[-1] - angles[0])`). -/
noncomputable def radialDiffs (angles : List ℝ) : List ℝ :=
  consecDiffs (sortAngles angles) ++
    [2 * Real.pi - (((sortAngles angles).getLast?.getD 0) - ((sortAngles angles).head?.getD 0))]

/-- Sorted-angle gap test shared by the code model and the claim-text
model: every gap within 0.1 of the mean gap (`np.mean`). -/
noncomputable def radialGapsOk (angles : List ℝ) : Prop :=
  ∀ d ∈ radialDiffs angles,
    |d - (radialDiffs angles).sum / ((radialDiffs angles).length : ℝ)| < 1 / 10

/-- `_check_radial_arrangement` (full_agent.py lines 195-214): angles are
taken about the FIXED center `[0, 0, 0]`. -/
noncomputable def checkRadialArrangement (ps : List Pt3R) : Prop :=
  3 ≤ ps.length ∧
    radialGapsOk (ps.map (fun p => atan2 (p.y - radialCenter.y) (p.x - radialCenter.x)))

/-- Centroid of the positions. -/
noncomputable def centroid (ps : List Pt3R) : Pt3R :=
  ⟨(ps.map Pt3R.x).sum / (ps.length : ℝ),
   (ps.map Pt3R.y).sum / (ps.length : ℝ),
   (ps.map Pt3R.z).sum / (ps.length : ℝ)⟩

/-- Modelled from the claim's words (not from the source): the radial
check as described, with each angle computed about the components'
CENTROID.  Used only to compare the claim's description with the code. -/
noncomputable def checkRadialCentroidSpec (ps : List Pt3R) : Prop :=
  3 ≤ ps.length ∧
    radialGapsOk (ps.map (fun p => atan2 (p.y - (centroid ps).y) (p.x - (centroid ps).x)))

/-! ### Concrete components used by the claim theorems -/

/-- A pedestal-style component: ground-contact by the claim's keyword list
(`stand`), but NOT by the keyword list of `_ensure_ground_contact`. -/
def c1Stand : Component :=
  ⟨"Stand_1", [⟨"mesh.build_box_mesh", some ⟨some 1, none, none⟩,
    ⟨⟨0, 0, 5⟩, ⟨0, 0, 0⟩, ⟨1, 1, 1⟩⟩, none⟩]⟩

def c2Shelf : Component :=
  ⟨"Shelf", [⟨"mesh.build_box_mesh", some ⟨some (mkRat 1 10), none, none⟩,
    ⟨⟨0, 0, 1⟩, ⟨0, 0, 0⟩, ⟨1, 1, 1⟩⟩, none⟩]⟩

def c2Leg : Component :=
  ⟨"Leg_1", [⟨"mesh.build_cylinder_mesh", some ⟨some (mkRat 1 2), none, none⟩,
    ⟨⟨0, 0, mkRat 1 4⟩, ⟨0, 0, 0⟩, ⟨1, 1, 1⟩⟩, none⟩]⟩

def c2In : List Component := [c2Shelf, c2Leg]

def c2cm : List (String × List String) := [("Shelf", ["Leg_1"]), ("Leg_1", ["Shelf"])]

def c3Seat : Component :=
  ⟨"Seat", [⟨"mesh.build_box_mesh", some ⟨some (mkRat 1 5), none, none⟩,
    ⟨⟨0, 0, mkRat 3 5⟩, ⟨0, 0, 0⟩, ⟨1, 1, 1⟩⟩, none⟩]⟩

def c3Leg : Component :=
  ⟨"Leg_1", [⟨"mesh.build_cylinder_mesh", some ⟨some (mkRat 1 2), none, none⟩,
    ⟨⟨0, 0, mkRat 1 4⟩, ⟨0, 0, 0⟩, ⟨1, 1, 1⟩⟩, none⟩]⟩

def c3Back : Component :=
  ⟨"Backrest", [⟨"mesh.build_box_mesh", some ⟨some (mkRat 2 5), none, none⟩,
    ⟨⟨0, 0, 1⟩, ⟨0, 0, 0⟩, ⟨1, 1, 1⟩⟩, none⟩]⟩

def c3In : List Component := [c3Seat, c3Leg, c3Back]

def c4MkLeg (nm : String) (h x y : ℚ) (rot : Vec3) : Component :=
  ⟨nm, [⟨"mesh.build_box_mesh", some ⟨some h, none, none⟩,
    ⟨⟨x, y, qhalf h⟩, rot, ⟨1, 1, 1⟩⟩, none⟩]⟩

def c4Top : Component :=
  ⟨"Table_Top", [⟨"mesh.build_box_mesh", some ⟨some (mkRat 3 100), none, none⟩,
    ⟨⟨0, 0, mkRat 3 4⟩, ⟨0, 0, 0⟩, ⟨1, 1, 1⟩⟩, none⟩]⟩

/-- The spec's table scenario: a top of height 0.03 declared at z = 0.75
and four legs with noisy heights 0.70, 0.71, 0.73, 0.74 (one of them with
a nonzero rotation, to observe whether rotation is rewritten). -/
def c4TableIn : List Component :=
  [c4MkLeg "Table_Leg_1" (mkRat 7 10) (mkRat 1 20) (mkRat 1 20) ⟨mkRat 1 10, 0, 0⟩,
   c4MkLeg "Table_Leg_2" (mkRat 71 100) (-(mkRat 1 20)) (mkRat 1 20) ⟨0, 0, 0⟩,
   c4MkLeg "Table_Leg_3" (mkRat 73 100) (mkRat 1 20) (-(mkRat 1 20)) ⟨0, 0, 0⟩,
   c4MkLeg "Table_Leg_4" (mkRat 37 50) (-(mkRat 1 20)) (-(mkRat 1 20)) ⟨0, 0, 0⟩,
   c4Top]

def c4Out : List Component := pcValidateConnections c4TableIn

def c5Leg : Component :=
  ⟨"Leg_1", [⟨"mesh.build_box_mesh", some ⟨some 1, none, none⟩,
    ⟨⟨0, 0, 2⟩, ⟨0, 0, 0⟩, ⟨1, 1, 1⟩⟩, none⟩]⟩

/-- A curve-based component that is NOT a base component. -/
def c5Arc : Component :=
  ⟨"Arc", [⟨"draw.bezier_curve", some ⟨none, none, some [⟨0, 0, 0⟩]⟩,
    ⟨⟨0, 0, 0⟩, ⟨0, 0, 0⟩, ⟨1, 1, 1⟩⟩, none⟩]⟩

def c5In : List Component := [c5Leg, c5Arc]

def c6Seat : Component :=
  ⟨"Seat", [⟨"mesh.build_box_mesh", some ⟨some (mkRat 1 5), none, none⟩,
    ⟨⟨0, 0, mkRat 3 5⟩, ⟨0, 0, 0⟩, ⟨1, 1, 1⟩⟩, none⟩]⟩

/-- A leg whose lowest point is on the ground and whose top carries the
seat, but which stands 0.4 to the side of the seat's center. -/
def c6WideLeg : Component :=
  ⟨"Leg_1", [⟨"mesh.build_cylinder_mesh", some ⟨some (mkRat 1 2), none, none⟩,
    ⟨⟨mkRat 2 5, mkRat 2 5, mkRat 1 4⟩, ⟨0, 0, 0⟩, ⟨1, 1, 1⟩⟩, none⟩]⟩

def c6WideIn : List Component := [c6Seat, c6WideLeg]

def c7LegBox : Component :=
  ⟨"Leg_2", [⟨"mesh.build_box_mesh", some ⟨some 1, none, none⟩,
    ⟨⟨0, 0, 2⟩, ⟨0, 0, 0⟩, ⟨1, 1, 1⟩⟩, none⟩]⟩

def c10Bad : Component :=
  ⟨"Mystery", [⟨"mesh.build_box_mesh", none,
    ⟨⟨5, 5, 5⟩, ⟨0, 0, 0⟩, ⟨1, 1, 1⟩⟩, none⟩]⟩

/-- A box-mesh component with symbolic height and location (unit scale, no
rotation), used by the C2, C3 and C6 theorem families. -/
def famBox (nm : String) (h x y z : ℚ) : Component :=
  ⟨nm, [⟨"mesh.build_box_mesh", some ⟨some h, none, none⟩,
    ⟨⟨x, y, z⟩, ⟨0, 0, 0⟩, ⟨1, 1, 1⟩⟩, none⟩]⟩

/-- A cylinder-mesh component with symbolic height and location (unit
scale, no rotation). -/
def famCyl (nm : String) (h x y z : ℚ) : Component :=
  ⟨nm, [⟨"mesh.build_cylinder_mesh", some ⟨some h, none, none⟩,
    ⟨⟨x, y, z⟩, ⟨0, 0, 0⟩, ⟨1, 1, 1⟩⟩, none⟩]⟩

/-! ### Derived notions used to state the general theorems -/

/-- A component whose first operation is one of the three mesh shapes with
a present `params` dict: exactly the components for which
`_get_connection_point` produces top/bottom/center anchors. -/
def knownShape (c : Component) : Bool :=
  match c.operations with
  | [] => false
  | o :: _ =>
    o.params.isSome &&
    (o.op = "mesh.build_sphere_mesh" || o.op = "mesh.build_cylinder_mesh" ||
     o.op = "mesh.build_box_mesh")

/-- The vertical half-extent `_get_connection_point` adds to (subtracts
from) the location to form the top (bottom) anchor. -/
def shapeHalfZ (o : Operation) : ℚ :=
  if o.op = "mesh.build_sphere_mesh" then
    qmul ((o.params.getD ⟨none, none, none⟩).radius.getD (mkRat 1 2)) o.transform.scale.z
  else qhalf (qmul ((o.params.getD ⟨none, none, none⟩).height.getD 1) o.transform.scale.z)

/-- The top-anchor z of a component, when it exists. -/
def topZ (c : Component) : Option ℚ :=
  (getConnectionPoint c).top.map (fun a => a.point.z)

/-- The data of a component that the chair phase and the highest-leg scan
can observe: its name, whether its shape is recognized, and its top-anchor
z.  The leg-recentering writes only components with equal view. -/
def viewComp (c : Component) : String × Bool × Option ℚ :=
  (c.name, knownShape c, topZ c)

/-! ### Bridging lemmas: the reducible arithmetic agrees with the field operations -/

theorem qadd_eq (a b : ℚ) : qadd a b = a + b := by
  have ha : ((a.den : ℚ)) ≠ 0 := Nat.cast_ne_zero.mpr a.den_nz
  have hb : ((b.den : ℚ)) ≠ 0 := Nat.cast_ne_zero.mpr b.den_nz
  rw [qadd, Rat.mkRat_eq_div]
  push_cast
  conv_rhs => rw [← Rat.num_div_den a, ← Rat.num_div_den b]
  field_simp

theorem qsub_eq (a b : ℚ) : qsub a b = a - b := by
  have ha : ((a.den : ℚ)) ≠ 0 := Nat.cast_ne_zero.mpr a.den_nz
  have hb : ((b.den : ℚ)) ≠ 0 := Nat.cast_ne_zero.mpr b.den_nz
  rw [qsub, Rat.mkRat_eq_div]
  push_cast
  conv_rhs => rw [← Rat.num_div_den a, ← Rat.num_div_den b]
  field_simp
  ring

theorem qmul_eq (a b : ℚ) : qmul a b = a * b := by
  have ha : ((a.den : ℚ)) ≠ 0 := Nat.cast_ne_zero.mpr a.den_nz
  have hb : ((b.den : ℚ)) ≠ 0 := Nat.cast_ne_zero.mpr b.den_nz
  rw [qmul, Rat.mkRat_eq_div]
  push_cast
  conv_rhs => rw [← Rat.num_div_den a, ← Rat.num_div_den b]
  field_simp

theorem qhalf_eq (a : ℚ) : qhalf a = a / 2 := by
  have ha : ((a.den : ℚ)) ≠ 0 := Nat.cast_ne_zero.mpr a.den_nz
  rw [qhalf, Rat.mkRat_eq_div]
  push_cast
  conv_rhs => rw [← Rat.num_div_den a]
  rw [div_div]

theorem qabs_eq (a : ℚ) : qabs a = |a| := by
  rw [qabs]
  by_cases h : a < 0
  · rw [if_pos h, abs_of_neg h]
  · rw [if_neg h, abs_of_nonneg (not_lt.mp h)]

/-! ### Closed counterexamples and scenario evaluations -/

/-- C1, counterexample: a single component named "Stand_1" is a
ground-contact component by the claim's keyword list (it matches `stand`),
but `_ensure_ground_contact` only looks for `frame`/`base`/`leg`, so the
pass leaves the input unchanged and the minimum lowest z over the claim's
ground-contact components is 4.5, not 0. -/
theorem C1_counterexample :
    needsGroundContact c1Stand = true ∧
    isBaseComponent c1Stand = false ∧
    ensureGroundContact [c1Stand] = .ok [c1Stand] ∧
    getLowestPoint c1Stand = .ok (mkRat 9 2) ∧
    ¬(qabs (qsub (mkRat 9 2) 0) < mkRat 1 100) := by
  refine ⟨by decide, by decide, by decide, by decide, by decide⟩

/-- C2, counterexample: "Shelf" matches the claim's supported-surface
names and is declared connected to "Leg_1", yet the pass moves nothing:
the shelf's bottom anchor stays at z = 0.95 while the highest support top
is at z = 0.5, far outside any tolerance. -/
theorem C2_counterexample :
    validateAndFix c2cm c2In = .ok c2In ∧
    (getConnectionPoint c2Shelf).bottom = some ⟨⟨0, 0, mkRat 19 20⟩, 1⟩ ∧
    highestLegZ c2In = .ok (some (mkRat 1 2)) ∧
    ¬(qabs (qsub (mkRat 19 20) (mkRat 1 2)) < mkRat 1 100) := by
  refine ⟨by decide, by decide, by decide, by decide⟩

/-- C3, counterexample: the pair (Backrest, Seat) is declared in the
connection map and the role-specific anchors (backrest bottom at z = 0.8,
seat top at z = 0.7) are 0.1 apart, yet `_snap_to_point` has no branch for
a name without "Leg"/"Seat"/"Top" and returns the backrest unchanged, so
after the pass the anchor distance still exceeds the tolerance. -/
theorem C3_counterexample :
    validateAndFix [("Backrest", ["Seat"])] c3In = .ok c3In ∧
    (getConnectionPoint c3Back).bottom = some ⟨⟨0, 0, mkRat 4 5⟩, 1⟩ ∧
    (getConnectionPoint c3Seat).top = some ⟨⟨0, 0, mkRat 7 10⟩, 1⟩ ∧
    snapToPoint c3Back ⟨0, 0, mkRat 4 5⟩ ⟨0, 0, mkRat 7 10⟩ = c3Back ∧
    ¬(distSq ⟨0, 0, mkRat 4 5⟩ ⟨0, 0, mkRat 7 10⟩ < mkRat 1 10000) := by
  refine ⟨by decide, by decide, by decide, by decide, by decide⟩

/-- C4, counterexample: on the spec's table scenario the code forces each
paired leg's height to the supported component's bottom z = 0.75 − 0.015 =
0.735 (not 0.72), puts its center at z = 0.3675 (not 0.36), and never
touches rotation (the leg's rotation (0.1, 0, 0) survives instead of
becoming (0, 0, 0)). -/
theorem C4_counterexample :
    (compAt c4Out 0).operations.map
        (fun o => (o.params.map Params.height, o.transform.location.z, o.transform.rotation)) =
      [(some (some (mkRat 147 200)), mkRat 147 400, ⟨mkRat 1 10, 0, 0⟩)] ∧
    mkRat 147 200 ≠ mkRat 18 25 ∧
    mkRat 147 400 ≠ mkRat 9 25 ∧
    (⟨mkRat 1 10, 0, 0⟩ : Vec3) ≠ ⟨0, 0, 0⟩ ∧
    mkRat 18 25 = (18 : ℚ) / 25 ∧ mkRat 9 25 = (9 : ℚ) / 25 := by
  refine ⟨by decide, by decide, by decide, by decide, by norm_num [Rat.mkRat_eq_div],
    by norm_num [Rat.mkRat_eq_div]⟩

/-- C4, amended claim: each leg paired with the top gets height = the
top's bottom z = 0.735 and location.z = height / 2 = 0.3675, with rotation
left as given; the top itself is not moved, and the result is flush: the
legs' tops reach exactly the top's bottom. -/
theorem C4_table_scenario :
    c4Out.map (fun c => (c.name, c.operations.map
        (fun o => (o.params.map Params.height, o.transform.location, o.transform.rotation)))) =
      [("Table_Leg_1", [(some (some (mkRat 147 200)),
          ⟨mkRat 1 20, mkRat 1 20, mkRat 147 400⟩, ⟨mkRat 1 10, 0, 0⟩)]),
       ("Table_Leg_2", [(some (some (mkRat 147 200)),
          ⟨-(mkRat 1 20), mkRat 1 20, mkRat 147 400⟩, ⟨0, 0, 0⟩)]),
       ("Table_Leg_3", [(some (some (mkRat 147 200)),
          ⟨mkRat 1 20, -(mkRat 1 20), mkRat 147 400⟩, ⟨0, 0, 0⟩)]),
       ("Table_Leg_4", [(some (some (mkRat 147 200)),
          ⟨-(mkRat 1 20), -(mkRat 1 20), mkRat 147 400⟩, ⟨0, 0, 0⟩)]),
       ("Table_Top", [(some (some (mkRat 3 100)), ⟨0, 0, mkRat 3 4⟩, ⟨0, 0, 0⟩)])] ∧
    qadd (mkRat 147 400) (qhalf (mkRat 147 200)) = qsub (mkRat 3 4) (qhalf (mkRat 3 100)) := by
  refine ⟨by decide, by decide⟩

/-- C5, counterexample: with a base box at lowest z = 1.5 and a non-base
bezier component, the resolver shifts every location z by the adjustment
1.5 but does NOT shift the non-base curve's anchors, so the relative
position between the leg's lowest point and the curve's lowest point
changes from 1.5 to 0. -/
theorem C5_counterexample :
    ensureGroundContact c5In =
      .ok [⟨"Leg_1", [⟨"mesh.build_box_mesh", some ⟨some 1, none, none⟩,
              ⟨⟨0, 0, mkRat 1 2⟩, ⟨0, 0, 0⟩, ⟨1, 1, 1⟩⟩, none⟩]⟩,
           ⟨"Arc", [⟨"draw.bezier_curve", some ⟨none, none, some [⟨0, 0, 0⟩]⟩,
              ⟨⟨0, 0, -(mkRat 3 2)⟩, ⟨0, 0, 0⟩, ⟨1, 1, 1⟩⟩, none⟩]⟩] ∧
    some [(⟨0, 0, 0⟩ : Vec3)] ≠ some [(⟨0, 0, -(mkRat 3 2)⟩ : Vec3)] ∧
    getLowestPoint c5Leg = .ok (mkRat 3 2) ∧
    getLowestPoint c5Arc = .ok 0 ∧
    getLowestPoint (⟨"Leg_1", [⟨"mesh.build_box_mesh", some ⟨some 1, none, none⟩,
        ⟨⟨0, 0, mkRat 1 2⟩, ⟨0, 0, 0⟩, ⟨1, 1, 1⟩⟩, none⟩]⟩ : Component) = .ok 0 ∧
    getLowestPoint (⟨"Arc", [⟨"draw.bezier_curve", some ⟨none, none, some [⟨0, 0, 0⟩]⟩,
        ⟨⟨0, 0, -(mkRat 3 2)⟩, ⟨0, 0, 0⟩, ⟨1, 1, 1⟩⟩, none⟩]⟩ : Component) = .ok 0 ∧
    qsub (mkRat 3 2) 0 ≠ qsub 0 0 := by
  refine ⟨by decide, by decide, by decide, by decide, by decide, by decide, by decide⟩

/-- C6, counterexample: a chair that satisfies every validity invariant of
the spec (ground components at z = 0, seat bottom equal to the highest leg
top, no declared connection out of tolerance — the map is empty) but
whose leg stands 0.4 to the side of the seat center.  Re-running the pass
sequence recenters the leg, so the already-valid list is not a fixed
point. -/
theorem C6_counterexample :
    lowestList (c6WideIn.filter (fun c => isBaseComponent c)) = .ok [0] ∧
    (getConnectionPoint c6Seat).bottom = some ⟨⟨0, 0, mkRat 1 2⟩, 1⟩ ∧
    highestLegZ c6WideIn = .ok (some (mkRat 1 2)) ∧
    validateAndFix [] c6WideIn =
      .ok [c6Seat,
           ⟨"Leg_1", [⟨"mesh.build_cylinder_mesh", some ⟨some (mkRat 1 2), none, none⟩,
              ⟨⟨0, 0, mkRat 1 4⟩, ⟨0, 0, 0⟩, ⟨1, 1, 1⟩⟩, none⟩]⟩] ∧
    ([c6Seat,
      ⟨"Leg_1", [⟨"mesh.build_cylinder_mesh", some ⟨some (mkRat 1 2), none, none⟩,
         ⟨⟨0, 0, mkRat 1 4⟩, ⟨0, 0, 0⟩, ⟨1, 1, 1⟩⟩, none⟩]⟩] : List Component) ≠ c6WideIn := by
  refine ⟨by decide, by decide, by decide, by decide, by decide⟩

/-- C7: the claim is the intended behaviour, but `_ensure_ground_contact`
computes `_get_lowest_point` for every base-named component OUTSIDE its
`try/except`, so a component named "Leg_1" with an empty operations list
raises an uncaught `IndexError` and validation aborts, instead of
skipping the component.  A non-ground-named component with empty
operations is indeed skipped and passed through unchanged while the rest
is adjusted. -/
theorem C7_empty_ops_crash :
    ensureGroundContact [⟨"Leg_1", []⟩] = .error "IndexError: operations" ∧
    ensureGroundContact [⟨"Cushion", []⟩, c7LegBox] =
      .ok [⟨"Cushion", []⟩,
           ⟨"Leg_2", [⟨"mesh.build_box_mesh", some ⟨some 1, none, none⟩,
              ⟨⟨0, 0, mkRat 1 2⟩, ⟨0, 0, 0⟩, ⟨1, 1, 1⟩⟩, none⟩]⟩] := by
  refine ⟨by decide, by decide⟩

/-- C10: whenever `_get_connection_point` hits an exception (empty
operations list, or a recognized shape whose `params` key is missing), it
returns the single center anchor at the origin with priority 0 — not at
the component's declared location — and that origin anchor is exactly
what the connection snapper then measures against. -/
theorem C10_origin_fallback (c : Component) :
    (c.operations = [] → getConnectionPoint c = centerOriginMap) ∧
    (∀ o rest, c.operations = o :: rest → o.params = none →
      o.op = "mesh.build_box_mesh" →
      getConnectionPoint c = centerOriginMap ∧
      (chosenAnchor (getConnectionPoint c)).point = ⟨0, 0, 0⟩ ∧
      (chosenAnchor (getConnectionPoint c)).priority = 0 ∧
      (o.transform.location ≠ ⟨0, 0, 0⟩ →
        (chosenAnchor (getConnectionPoint c)).point ≠ o.transform.location)) := by
  constructor
  · intro h
    simp [getConnectionPoint, h]
  · intro o rest h hp hop
    have hmap : getConnectionPoint c = centerOriginMap := by
      simp [getConnectionPoint, h, hp, hop]
    refine ⟨hmap, ?_, ?_, ?_⟩
    · rw [hmap]; rfl
    · rw [hmap]; rfl
    · intro hne heq
      rw [hmap] at heq
      exact hne (by rw [← heq]; rfl)

/-- C10, witness at a concrete malformed component located at (5,5,5). -/
theorem C10_origin_fallback_witness :
    getConnectionPoint c10Bad = centerOriginMap ∧
    (chosenAnchor (getConnectionPoint c10Bad)).point ≠ ⟨5, 5, 5⟩ := by
  have h := (C10_origin_fallback c10Bad).2
    ⟨"mesh.build_box_mesh", none, ⟨⟨5, 5, 5⟩, ⟨0, 0, 0⟩, ⟨1, 1, 1⟩⟩, none⟩ [] rfl rfl rfl
  exact ⟨h.1, h.2.2.2 (by decide)⟩

/-! ### Helper lemmas about the Ground Contact Resolver -/

theorem adjustBaseComp_name (adj : ℚ) (c : Component) :
    (adjustBaseComp adj c).name = c.name := by
  unfold adjustBaseComp
  repeat' split
  all_goals rfl

theorem adjustOtherComp_name (adj : ℚ) (c : Component) :
    (adjustOtherComp adj c).name = c.name := by
  unfold adjustOtherComp
  repeat' split
  all_goals rfl

theorem isBaseComponent_congr {c d : Component} (h : c.name = d.name) :
    isBaseComponent c = isBaseComponent d := by
  unfold isBaseComponent
  rw [h]

theorem foldl_min_qsub (adj : ℚ) :
    ∀ (as : List Vec3) (a : ℚ),
      (as.map (fun v => (⟨v.x, v.y, qsub v.z adj⟩ : Vec3))).foldl (fun m v => min m v.z)
          (qsub a adj)
        = qsub (as.foldl (fun m v => min m v.z) a) adj := by
  intro as
  induction as with
  | nil => intro a; rfl
  | cons v vs ih =>
    intro a
    have hmin : min (qsub a adj) (qsub v.z adj) = qsub (min a v.z) adj := by
      rw [qsub_eq, qsub_eq, qsub_eq, min_sub_sub_right]
    simp only [List.map_cons, List.foldl_cons, hmin]
    exact ih (min a v.z)

theorem getLowestPoint_adjustBase (adj : ℚ) (c : Component) (v : ℚ)
    (h : getLowestPoint c = .ok v) :
    getLowestPoint (adjustBaseComp adj c) = .ok (qsub v adj) := by
  match hops : c.operations with
  | [] =>
    simp only [getLowestPoint, hops] at h
    exact Except.noConfusion h
  | o :: rest =>
    match hp : o.params with
    | none =>
      simp only [getLowestPoint, hops, hp] at h
      exact Except.noConfusion h
    | some p =>
      by_cases hbez : o.op = "draw.bezier_curve"
      · match ha : p.anchors with
        | none =>
          simp only [getLowestPoint, hops, hp, if_pos hbez, ha] at h
          exact Except.noConfusion h
        | some as =>
          match has : as with
          | [] =>
            simp only [getLowestPoint, hops, hp, if_pos hbez, ha, has] at h
            exact Except.noConfusion h
          | a :: arest =>
            simp only [getLowestPoint, hops, hp, if_pos hbez, ha, has,
              Except.ok.injEq] at h
            unfold adjustBaseComp
            simp only [hops, if_pos hbez, hp, ha, has, List.map_cons]
            simp only [getLowestPoint, if_pos hbez]
            rw [foldl_min_qsub adj arest a.z, h]
      · have hbase : adjustBaseComp adj c =
            { c with operations :=
                { o with transform :=
                    { o.transform with location :=
                        { o.transform.location with
                          z := qsub o.transform.location.z adj } } } :: rest } := by
          unfold adjustBaseComp
          simp only [hops, if_neg hbez]
        rw [hbase]
        simp only [getLowestPoint, hops, hp, if_neg hbez] at h
        simp only [getLowestPoint, hp, if_neg hbez]
        by_cases h1 : o.op = "mesh.build_cylinder_mesh"
        · simp only [if_pos h1] at h ⊢
          match hh : p.height with
          | none => simp only [hh] at h; exact Except.noConfusion h
          | some ht =>
            simp only [hh, Except.ok.injEq] at h ⊢
            rw [← h]
            simp only [qsub_eq]
            ring
        · simp only [if_neg h1] at h ⊢
          by_cases h2 : o.op = "mesh.build_box_mesh"
          · simp only [if_pos h2] at h ⊢
            match hh : p.height with
            | none => simp only [hh] at h; exact Except.noConfusion h
            | some ht =>
              simp only [hh, Except.ok.injEq] at h ⊢
              rw [← h]
              simp only [qsub_eq]
              ring
          · simp only [if_neg h2] at h ⊢
            by_cases h3 : o.op = "mesh.build_sphere_mesh"
            · simp only [if_pos h3] at h ⊢
              match hh : p.radius with
              | none => simp only [hh] at h; exact Except.noConfusion h
              | some r =>
                simp only [hh, Except.ok.injEq] at h ⊢
                rw [← h]
                simp only [qsub_eq]
                ring
            · simp only [if_neg h3, Except.ok.injEq] at h ⊢
              rw [h]

theorem filter_base_map (adj : ℚ) (l : List Component) :
    (l.map (fun c =>
        if isBaseComponent c then adjustBaseComp adj c else adjustOtherComp adj c)).filter
      (fun c => isBaseComponent c)
    = (l.filter (fun c => isBaseComponent c)).map (adjustBaseComp adj) := by
  induction l with
  | nil => rfl
  | cons c cs ih =>
    by_cases hb : isBaseComponent c
    · have hb' : isBaseComponent (adjustBaseComp adj c) = true := by
        rw [isBaseComponent_congr (adjustBaseComp_name adj c)]
        exact hb
      simp only [List.map_cons, List.filter_cons, if_pos hb, hb', if_pos rfl, hb,
        if_pos trivial, ih]
    · have hb0 : isBaseComponent c = false := by
        exact Bool.not_eq_true _ ▸ (by simpa using hb)
      have hb' : isBaseComponent (adjustOtherComp adj c) = false := by
        rw [isBaseComponent_congr (adjustOtherComp_name adj c)]
        exact hb0
      simp only [List.map_cons, List.filter_cons, hb0, if_neg hb, hb',
        Bool.false_eq_true, if_false, ih]

theorem lowestList_map_adjust (adj : ℚ) (bs : List Component) (lows : List ℚ)
    (h : lowestList bs = .ok lows) :
    lowestList (bs.map (adjustBaseComp adj)) = .ok (lows.map (fun v => qsub v adj)) := by
  induction bs generalizing lows with
  | nil =>
    simp only [lowestList, Except.ok.injEq] at h
    subst h
    rfl
  | cons c cs ih =>
    rw [lowestList] at h
    match hv : getLowestPoint c with
    | .error e => rw [hv] at h; exact Except.noConfusion h
    | .ok v =>
      rw [hv] at h
      match hrest : lowestList cs with
      | .error e => rw [hrest] at h; exact Except.noConfusion h
      | .ok vs =>
        rw [hrest] at h
        simp only [Except.ok.injEq] at h
        subst h
        simp only [List.map_cons, lowestList, getLowestPoint_adjustBase adj c v hv, ih vs hrest]

theorem foldl_min_qsub_rat (adj : ℚ) :
    ∀ (xs : List ℚ) (a : ℚ),
      (xs.map (fun v => qsub v adj)).foldl min (qsub a adj) = qsub (xs.foldl min a) adj := by
  intro xs
  induction xs with
  | nil => intro a; rfl
  | cons x rest ih =>
    intro a
    have hmin : min (qsub a adj) (qsub x adj) = qsub (min a x) adj := by
      rw [qsub_eq, qsub_eq, qsub_eq, min_sub_sub_right]
    simp only [List.map_cons, List.foldl_cons, hmin]
    exact ih (min a x)

theorem minList_map_qsub (adj : ℚ) (x : ℚ) (xs : List ℚ) :
    minList ((x :: xs).map (fun v => qsub v adj)) = qsub (minList (x :: xs)) adj := by
  simp only [List.map_cons, minList]
  exact foldl_min_qsub_rat adj xs x

theorem lowestList_len (bs : List Component) (lows : List ℚ)
    (h : lowestList bs = .ok lows) : lows.length = bs.length := by
  induction bs generalizing lows with
  | nil =>
    simp only [lowestList, Except.ok.injEq] at h
    subst h
    rfl
  | cons c cs ih =>
    rw [lowestList] at h
    match hv : getLowestPoint c with
    | .error e => rw [hv] at h; exact Except.noConfusion h
    | .ok v =>
      rw [hv] at h
      match hrest : lowestList cs with
      | .error e => rw [hrest] at h; exact Except.noConfusion h
      | .ok vs =>
        rw [hrest] at h
        simp only [Except.ok.injEq] at h
        subst h
        simp only [List.length_cons, ih vs hrest]

theorem lowestList_ok_of_all (bs : List Component)
    (h : ∀ c ∈ bs, ∃ v, getLowestPoint c = .ok v) :
    ∃ lows, lowestList bs = .ok lows := by
  induction bs with
  | nil => exact ⟨[], rfl⟩
  | cons c cs ih =>
    obtain ⟨v, hv⟩ := h c (List.mem_cons_self c cs)
    obtain ⟨vs, hvs⟩ := ih (fun d hd => h d (List.mem_cons_of_mem c hd))
    exact ⟨v :: vs, by rw [lowestList, hv, hvs]⟩

/-- C1, amended claim: with the code's keyword list `frame`/`base`/`leg`,
for every input containing at least one base component, all of whose base
components have a computable lowest point, the pass succeeds and the
minimum lowest z over the base components of the output is exactly 0. -/
theorem C1_ground_min_zero (l : List Component)
    (hne : l.filter (fun c => isBaseComponent c) ≠ [])
    (hok : ∀ c ∈ l.filter (fun c => isBaseComponent c), ∃ v, getLowestPoint c = .ok v) :
    ∃ out lows, ensureGroundContact l = .ok out ∧
      lowestList (out.filter (fun c => isBaseComponent c)) = .ok lows ∧
      minList lows = 0 := by
  obtain ⟨lows, hlows⟩ := lowestList_ok_of_all _ hok
  rw [ensureGroundContact]
  have hempty : (l.filter (fun c => isBaseComponent c)).isEmpty = false := by
    cases hcase : l.filter (fun c => isBaseComponent c) with
    | nil => exact absurd hcase hne
    | cons a as => rfl
  rw [hempty]
  simp only [Bool.false_eq_true, if_false, hlows]
  refine ⟨_, lows.map (fun v => qsub v (qsub (minList lows) 0)), rfl, ?_, ?_⟩
  · rw [filter_base_map]
    exact lowestList_map_adjust _ _ _ hlows
  · obtain ⟨b, bs, hcase⟩ : ∃ b bs, l.filter (fun c => isBaseComponent c) = b :: bs := by
      cases hcase : l.filter (fun c => isBaseComponent c) with
      | nil => exact absurd hcase hne
      | cons b bs => exact ⟨b, bs, rfl⟩
    rw [hcase] at hlows
    cases lows with
    | nil =>
      have := lowestList_len _ _ hlows
      simp at this
    | cons v vs =>
      rw [minList_map_qsub]
      simp only [qsub_eq, sub_zero, sub_self]

/-- C1, witness: a "Stand_1" plus a "Leg_1" component; the pass grounds the
leg-based minimum exactly. -/
theorem C1_ground_min_zero_witness :
    ∃ out lows, ensureGroundContact [c1Stand, c5Leg] = .ok out ∧
      lowestList (out.filter (fun c => isBaseComponent c)) = .ok lows ∧
      minList lows = 0 := by
  refine C1_ground_min_zero [c1Stand, c5Leg] (by decide) ?_
  intro c hc
  have hf : ([c1Stand, c5Leg].filter (fun c => isBaseComponent c)) = [c5Leg] := by decide
  rw [hf] at hc
  simp only [List.mem_singleton] at hc
  subst hc
  exact ⟨mkRat 3 2, by decide⟩

/-- C5, amended claim: the resolver subtracts the common adjustment
(min of the base lowest points) from `location.z` of every component EXCEPT
curve-based base components, whose anchors' z are shifted instead while
their location is untouched; in particular a curve-based NON-base
component has only its location shifted and its anchors left unchanged.
No other field changes, and a component with an empty operations list is
passed through unchanged. -/
theorem C5_ground_shift (l : List Component)
    (hne : l.filter (fun c => isBaseComponent c) ≠ [])
    (hok : ∀ c ∈ l.filter (fun c => isBaseComponent c), ∃ v, getLowestPoint c = .ok v) :
    ∃ out lows, ensureGroundContact l = .ok out ∧
      lowestList (l.filter (fun c => isBaseComponent c)) = .ok lows ∧
      out.length = l.length ∧
      ∀ i c, l.get? i = some c →
        ((c.operations = [] → out.get? i = some c) ∧
         ∀ o rest, c.operations = o :: rest →
           ((isBaseComponent c = true → o.op = "draw.bezier_curve" →
              ∀ p as, o.params = some p → p.anchors = some as →
                out.get? i = some { c with operations := { o with params := some { p with anchors := some (as.map (fun v => ⟨v.x, v.y, v.z - minList lows⟩)) } } :: rest }) ∧
            ((isBaseComponent c = false ∨ ¬o.op = "draw.bezier_curve") →
              out.get? i = some { c with operations :=
                { o with transform := { o.transform with location :=
                    { o.transform.location with
                      z := o.transform.location.z - minList lows } } } :: rest }))) := by
  obtain ⟨lows, hlows⟩ := lowestList_ok_of_all _ hok
  have hempty : (l.filter (fun c => isBaseComponent c)).isEmpty = false := by
    cases hcase : l.filter (fun c => isBaseComponent c) with
    | nil => exact absurd hcase hne
    | cons a as => rfl
  have hadj : qsub (minList lows) 0 = minList lows := by
    rw [qsub_eq, sub_zero]
  refine ⟨l.map (fun c =>
      if isBaseComponent c then adjustBaseComp (qsub (minList lows) 0) c
      else adjustOtherComp (qsub (minList lows) 0) c), lows, ?_, hlows, ?_, ?_⟩
  · rw [ensureGroundContact, hempty]
    simp only [Bool.false_eq_true, if_false, hlows]
  · rw [List.length_map]
  · intro i c hi
    have hget : (l.map (fun c =>
        if isBaseComponent c then adjustBaseComp (qsub (minList lows) 0) c
        else adjustOtherComp (qsub (minList lows) 0) c)).get? i
        = some (if isBaseComponent c then adjustBaseComp (qsub (minList lows) 0) c
                else adjustOtherComp (qsub (minList lows) 0) c) := by
      rw [List.get?_map, hi]
      rfl
    constructor
    · intro hops
      rw [hget]
      have h1 : adjustBaseComp (qsub (minList lows) 0) c = c := by
        unfold adjustBaseComp
        rw [hops]
      have h2 : adjustOtherComp (qsub (minList lows) 0) c = c := by
        unfold adjustOtherComp
        rw [hops]
      by_cases hb : isBaseComponent c
      · rw [if_pos hb, h1]
      · rw [if_neg hb, h2]
    · intro o rest hops
      constructor
      · intro hb hbez p as hp ha
        rw [hget, if_pos hb]
        unfold adjustBaseComp
        rw [hops]
        simp only [if_pos hbez, hp, ha, hadj, Option.some.injEq]
        have hfun : (fun v : Vec3 => (⟨v.x, v.y, qsub v.z (minList lows)⟩ : Vec3))
            = fun v : Vec3 => (⟨v.x, v.y, v.z - minList lows⟩ : Vec3) := by
          funext v
          rw [qsub_eq]
        rw [hfun]
      · intro hcase
        rw [hget]
        have hother : adjustOtherComp (qsub (minList lows) 0) c =
            { c with operations :=
              { o with transform := { o.transform with location :=
                  { o.transform.location with
                    z := o.transform.location.z - minList lows } } } :: rest } := by
          unfold adjustOtherComp
          rw [hops]
          simp only [hadj, qsub_eq]
        cases hcase with
        | inl hb =>
          rw [if_neg (by rw [hb]; exact Bool.false_ne_true), hother]
        | inr hbez =>
          by_cases hb : isBaseComponent c
          · rw [if_pos hb]
            unfold adjustBaseComp
            rw [hops]
            simp only [if_neg hbez, hadj, qsub_eq]
          · rw [if_neg hb, hother]

/-- C5, witness at the leg + non-base curve input. -/
theorem C5_ground_shift_witness :
    ∃ out lows, ensureGroundContact c5In = .ok out ∧
      lowestList (c5In.filter (fun c => isBaseComponent c)) = .ok lows ∧
      out.length = c5In.length ∧
      ∀ i c, c5In.get? i = some c →
        ((c.operations = [] → out.get? i = some c) ∧
         ∀ o rest, c.operations = o :: rest →
           ((isBaseComponent c = true → o.op = "draw.bezier_curve" →
              ∀ p as, o.params = some p → p.anchors = some as →
                out.get? i = some { c with operations := { o with params := some { p with anchors := some (as.map (fun v => ⟨v.x, v.y, v.z - minList lows⟩)) } } :: rest }) ∧
            ((isBaseComponent c = false ∨ ¬o.op = "draw.bezier_curve") →
              out.get? i = some { c with operations :=
                { o with transform := { o.transform with location :=
                    { o.transform.location with
                      z := o.transform.location.z - minList lows } } } :: rest }))) := by
  refine C5_ground_shift c5In (by decide) ?_
  intro c hc
  have hf : (c5In.filter (fun c => isBaseComponent c)) = [c5Leg] := by decide
  rw [hf] at hc
  simp only [List.mem_singleton] at hc
  subst hc
  exact ⟨mkRat 3 2, by decide⟩

/-- C8, counterexample: on components at (1,1,0) and (1,−1,0) the claim
asserts the check returns false, but `_check_symmetry` also tests y-axis
symmetry, which this pair satisfies, so it returns true. -/
theorem C8_counterexample :
    checkSymmetry [("A", ⟨1, 1, 0⟩), ("B", ⟨1, -1, 0⟩)] := by
  refine ⟨by norm_num, ("A", ⟨1, 1, 0⟩), by simp, ("B", ⟨1, -1, 0⟩), by simp, ?_, ?_⟩
  · decide
  · right
    constructor
    · simp only [yMirrorMatch]
      norm_num
    · norm_num

/-- C8, amended claim: the check returns true for (1,1,0) and (−1,1,0);
for (1,1,0) and (1,−1,0) the x-mirror condition alone fails, but the
function has no per-axis mode — it tests both axes over all pairs — and
returns true for that pair as well, via the y-axis condition. -/
theorem C8_mirror_both_axes :
    checkSymmetry [("A", ⟨1, 1, 0⟩), ("B", ⟨-1, 1, 0⟩)] ∧
    ¬ xMirrorMatch ⟨1, 1, 0⟩ ⟨1, -1, 0⟩ ∧
    checkSymmetry [("A", ⟨1, 1, 0⟩), ("B", ⟨1, -1, 0⟩)] := by
  refine ⟨⟨by norm_num, ("A", ⟨1, 1, 0⟩), by simp, ("B", ⟨-1, 1, 0⟩), by simp, by decide, ?_⟩,
    ?_, ⟨by norm_num, ("A", ⟨1, 1, 0⟩), by simp, ("B", ⟨1, -1, 0⟩), by simp, by decide, ?_⟩⟩
  · left
    constructor
    · simp only [xMirrorMatch]
      norm_num
    · norm_num
  · intro h
    obtain ⟨h1, _⟩ := h
    norm_num at h1
  · right
    constructor
    · simp only [yMirrorMatch]
      norm_num
    · norm_num

/-! ### Helper lemmas for the radial check -/

theorem atan2_zero_pos {x : ℝ} (hx : 0 < x) : atan2 0 x = 0 := by
  rw [atan2, if_pos hx, zero_div, Real.arctan_zero]

theorem atan2_pos_zero {y : ℝ} (hy : 0 < y) : atan2 y 0 = Real.pi / 2 := by
  rw [atan2, if_neg (lt_irrefl 0), if_neg (lt_irrefl 0), if_pos hy]

theorem atan2_zero_neg {x : ℝ} (hx : x < 0) : atan2 0 x = Real.pi := by
  rw [atan2, if_neg (by linarith), if_pos hx, if_pos le_rfl, zero_div, Real.arctan_zero,
    zero_add]

theorem atan2_neg_zero {y : ℝ} (hy : y < 0) : atan2 y 0 = -(Real.pi / 2) := by
  rw [atan2, if_neg (lt_irrefl 0), if_neg (lt_irrefl 0), if_neg (by linarith), if_pos hy]

/-- On the right half plane, `atan2` of a unit-circle point recovers the
angle. -/
theorem atan2_sin_cos {t : ℝ} (h1 : -(Real.pi / 2) < t) (h2 : t < Real.pi / 2) :
    atan2 (Real.sin t) (Real.cos t) = t := by
  have hc : 0 < Real.cos t := Real.cos_pos_of_mem_Ioo ⟨h1, h2⟩
  rw [atan2, if_pos hc, ← Real.tan_eq_sin_div_cos, Real.arctan_tan h1 h2]

/-- In the third quadrant, `atan2` of a unit-circle point at angle `t + π`
(with `t` in the fourth/first quadrant range) gives `t - π`. -/
theorem atan2_sin_cos_third {t : ℝ} (h1 : 0 < t) (h2 : t < Real.pi / 2) :
    atan2 (Real.sin (t + Real.pi)) (Real.cos (t + Real.pi)) = t - Real.pi := by
  have hpi := Real.pi_pos
  have hsin : Real.sin (t + Real.pi) = -Real.sin t := by
    rw [Real.sin_add, Real.sin_pi, Real.cos_pi]
    ring
  have hcos : Real.cos (t + Real.pi) = -Real.cos t := by
    rw [Real.cos_add, Real.sin_pi, Real.cos_pi]
    ring
  have hsint : 0 < Real.sin t := Real.sin_pos_of_pos_of_lt_pi h1 (by linarith)
  have hcost : 0 < Real.cos t := Real.cos_pos_of_mem_Ioo ⟨by linarith, h2⟩
  rw [hsin, hcos, atan2, if_neg (by linarith), if_pos (by linarith), if_neg (by linarith)]
  have hdiv : -Real.sin t / -Real.cos t = Real.tan t := by
    rw [Real.tan_eq_sin_div_cos]
    field_simp
  rw [hdiv, Real.arctan_tan (by linarith) h2]

theorem sortA (u v : ℝ) (hu : 0 < u) (huv : u ≤ v) :
    sortAngles [0, u, v, -u] = [-u, 0, u, v] := by
  have h1 : ¬(v ≤ -u) := by linarith
  have h2 : ¬(u ≤ -u) := by linarith
  have h4 : ¬((0:ℝ) ≤ -u) := by linarith
  have h5 : (0:ℝ) ≤ u := le_of_lt hu
  simp only [sortAngles, List.insertionSort, List.orderedInsert, if_neg h1, if_neg h2,
    if_pos huv, if_neg h4, if_pos h5]

theorem diffsA (u v : ℝ) (hu : 0 < u) (huv : u ≤ v) :
    radialDiffs [0, u, v, -u] = [u, u - 0, v - u, 2 * Real.pi - (v - -u)] := by
  rw [radialDiffs, sortA u v hu huv]
  simp only [consecDiffs, List.getLast?, Option.getD, List.head?]
  norm_num

theorem gapsOk_cross : radialGapsOk [0, Real.pi/2, Real.pi, -(Real.pi/2)] := by
  have hpi := Real.pi_pos
  rw [radialGapsOk, diffsA (Real.pi/2) Real.pi (by linarith) (by linarith)]
  simp only [List.sum_cons, List.sum_nil, List.length_cons, List.length_nil]
  intro d hd
  simp only [List.mem_cons, List.not_mem_nil, or_false] at hd
  rcases hd with h | h | h | h <;> subst h <;> rw [abs_sub_lt_iff] <;> constructor <;>
    push_cast <;> linarith

theorem sortB (a : ℝ) (ha : 0 < a) :
    sortAngles [0, a, 0, -a] = [-a, 0, 0, a] := by
  have h1 : ¬((0:ℝ) ≤ -a) := by linarith
  have h2 : ¬(a ≤ -a) := by linarith
  have h3 : ¬(a ≤ (0:ℝ)) := by linarith
  have h5 : (0:ℝ) ≤ (0:ℝ) := le_rfl
  simp only [sortAngles, List.insertionSort, List.orderedInsert, if_neg h1, if_neg h2,
    if_neg h3, if_pos h5]

theorem diffsB (a : ℝ) (ha : 0 < a) :
    radialDiffs [0, a, 0, -a] = [0 - -a, 0 - 0, a - 0, 2 * Real.pi - (a - -a)] := by
  rw [radialDiffs, sortB a ha]
  simp only [consecDiffs, List.getLast?, List.getLast, Option.getD, List.head?,
    List.cons_append, List.nil_append]

theorem gapsNot_zero_gap (a : ℝ) (ha : 0 < a) : ¬ radialGapsOk [0, a, 0, -a] := by
  intro hall
  have hpi := Real.pi_gt_three
  rw [radialGapsOk, diffsB a ha] at hall
  have hmem : (0:ℝ) - 0 ∈ [(0:ℝ) - -a, 0 - 0, a - 0, 2 * Real.pi - (a - -a)] := by
    simp
  have h := hall _ hmem
  simp only [List.sum_cons, List.sum_nil, List.length_cons, List.length_nil] at h
  rw [abs_sub_lt_iff] at h
  obtain ⟨_, h2⟩ := h
  push_cast at h2
  linarith

theorem sortC (u w : ℝ) (hw : w < 0) (hu : 0 < u) :
    sortAngles [0, u, w] = [w, 0, u] := by
  have h1 : ¬(u ≤ w) := by linarith
  have h2 : ¬((0:ℝ) ≤ w) := by linarith
  have h3 : (0:ℝ) ≤ u := le_of_lt hu
  simp only [sortAngles, List.insertionSort, List.orderedInsert, if_neg h1, if_neg h2,
    if_pos h3]

theorem diffsC (u w : ℝ) (hw : w < 0) (hu : 0 < u) :
    radialDiffs [0, u, w] = [0 - w, u - 0, 2 * Real.pi - (u - w)] := by
  rw [radialDiffs, sortC u w hw hu]
  simp only [consecDiffs, List.getLast?, List.getLast, Option.getD, List.head?,
    List.cons_append, List.nil_append]

theorem gapsNot_080200 : ¬ radialGapsOk [0, 4 * Real.pi / 9, -(8 * Real.pi / 9)] := by
  intro hall
  have hpi := Real.pi_gt_three
  have hpos := Real.pi_pos
  rw [radialGapsOk, diffsC (4 * Real.pi / 9) (-(8 * Real.pi / 9)) (by linarith) (by linarith)]
    at hall
  have hmem : (0:ℝ) - -(8 * Real.pi / 9) ∈
      [(0:ℝ) - -(8 * Real.pi / 9), 4 * Real.pi / 9 - 0,
       2 * Real.pi - (4 * Real.pi / 9 - -(8 * Real.pi / 9))] := by
    simp
  have h := hall _ hmem
  simp only [List.sum_cons, List.sum_nil, List.length_cons, List.length_nil] at h
  rw [abs_sub_lt_iff] at h
  obtain ⟨h1, _⟩ := h
  push_cast at h1
  linarith

/-- C9, counterexample: a 4-point cross centered at (5, 0).  About its
centroid the points sit at 0°, 90°, 180°, 270°, so the claim's
(centroid-based) description accepts; the code measures angles about the
fixed origin `[0, 0, 0]` and rejects. -/
theorem C9_counterexample :
    checkRadialCentroidSpec [⟨7, 0, 0⟩, ⟨5, 1, 0⟩, ⟨3, 0, 0⟩, ⟨5, -1, 0⟩] ∧
    ¬ checkRadialArrangement [⟨7, 0, 0⟩, ⟨5, 1, 0⟩, ⟨3, 0, 0⟩, ⟨5, -1, 0⟩] := by
  have hpi := Real.pi_pos
  have hcx : (centroid [⟨7, 0, 0⟩, ⟨5, 1, 0⟩, ⟨3, 0, 0⟩, ⟨5, -1, 0⟩]).x = 5 := by
    simp only [centroid, List.map_cons, List.map_nil, List.sum_cons, List.sum_nil,
      List.length_cons, List.length_nil]
    norm_num
  have hcy : (centroid [⟨7, 0, 0⟩, ⟨5, 1, 0⟩, ⟨3, 0, 0⟩, ⟨5, -1, 0⟩]).y = 0 := by
    simp only [centroid, List.map_cons, List.map_nil, List.sum_cons, List.sum_nil,
      List.length_cons, List.length_nil]
    norm_num
  have e1 : atan2 0 2 = 0 := atan2_zero_pos (by norm_num)
  have e2 : atan2 1 0 = Real.pi / 2 := atan2_pos_zero one_pos
  have e3 : atan2 0 (-2) = Real.pi := atan2_zero_neg (by norm_num)
  have e4 : atan2 (-1) 0 = -(Real.pi / 2) := atan2_neg_zero (by norm_num)
  constructor
  · refine ⟨by norm_num, ?_⟩
    have hmap : ([⟨7, 0, 0⟩, ⟨5, 1, 0⟩, ⟨3, 0, 0⟩, ⟨5, -1, 0⟩] : List Pt3R).map
        (fun p => atan2 (p.y - (centroid [⟨7, 0, 0⟩, ⟨5, 1, 0⟩, ⟨3, 0, 0⟩, ⟨5, -1, 0⟩]).y)
          (p.x - (centroid [⟨7, 0, 0⟩, ⟨5, 1, 0⟩, ⟨3, 0, 0⟩, ⟨5, -1, 0⟩]).x))
        = [0, Real.pi / 2, Real.pi, -(Real.pi / 2)] := by
      simp only [List.map_cons, List.map_nil, hcx, hcy]
      norm_num [e1, e2, e3, e4]
    rw [hmap]
    exact gapsOk_cross
  · intro hcheck
    obtain ⟨_, hgaps⟩ := hcheck
    have f1 : atan2 0 7 = 0 := atan2_zero_pos (by norm_num)
    have f2 : atan2 1 5 = Real.arctan (1 / 5) := by
      rw [atan2, if_pos (by norm_num : (0:ℝ) < 5)]
    have f3 : atan2 0 3 = 0 := atan2_zero_pos (by norm_num)
    have f4 : atan2 (-1) 5 = -Real.arctan (1 / 5) := by
      rw [atan2, if_pos (by norm_num : (0:ℝ) < 5)]
      rw [show (-1 : ℝ) / 5 = -(1 / 5) by norm_num, Real.arctan_neg]
    have hmap2 : ([⟨7, 0, 0⟩, ⟨5, 1, 0⟩, ⟨3, 0, 0⟩, ⟨5, -1, 0⟩] : List Pt3R).map
        (fun p => atan2 (p.y - radialCenter.y) (p.x - radialCenter.x))
        = [0, Real.arctan (1 / 5), 0, -Real.arctan (1 / 5)] := by
      simp only [List.map_cons, List.map_nil, radialCenter]
      norm_num [f1, f2, f3, f4]
    rw [hmap2] at hgaps
    have hapos : 0 < Real.arctan (1 / 5) := by
      rw [← Real.arctan_zero]
      exact Real.arctan_strictMono (by norm_num)
    exact gapsNot_zero_gap (Real.arctan (1 / 5)) hapos hgaps

/-- C9, amended claim: the radial check measures angles about the fixed
origin (0,0,0); with that correction the claim's description and examples
hold: four components at 0°, 90°, 180°, 270° on the unit circle pass, and
three components at 0°, 80°, 200° fail. -/
theorem C9_radial_origin :
    checkRadialArrangement [⟨1, 0, 0⟩, ⟨0, 1, 0⟩, ⟨-1, 0, 0⟩, ⟨0, -1, 0⟩] ∧
    ¬ checkRadialArrangement
        [⟨1, 0, 0⟩,
         ⟨Real.cos (4 * Real.pi / 9), Real.sin (4 * Real.pi / 9), 0⟩,
         ⟨Real.cos (10 * Real.pi / 9), Real.sin (10 * Real.pi / 9), 0⟩] := by
  have hpi := Real.pi_pos
  constructor
  · refine ⟨by norm_num, ?_⟩
    have e1 : atan2 0 1 = 0 := atan2_zero_pos one_pos
    have e2 : atan2 1 0 = Real.pi / 2 := atan2_pos_zero one_pos
    have e3 : atan2 0 (-1) = Real.pi := atan2_zero_neg (by norm_num)
    have e4 : atan2 (-1) 0 = -(Real.pi / 2) := atan2_neg_zero (by norm_num)
    have hmap : ([⟨1, 0, 0⟩, ⟨0, 1, 0⟩, ⟨-1, 0, 0⟩, ⟨0, -1, 0⟩] : List Pt3R).map
        (fun p => atan2 (p.y - radialCenter.y) (p.x - radialCenter.x))
        = [0, Real.pi / 2, Real.pi, -(Real.pi / 2)] := by
      simp only [List.map_cons, List.map_nil, radialCenter]
      norm_num [e1, e2, e3, e4]
    rw [hmap]
    exact gapsOk_cross
  · intro hcheck
    obtain ⟨_, hgaps⟩ := hcheck
    have f1 : atan2 0 1 = 0 := atan2_zero_pos one_pos
    have f2 : atan2 (Real.sin (4 * Real.pi / 9)) (Real.cos (4 * Real.pi / 9))
        = 4 * Real.pi / 9 :=
      atan2_sin_cos (by linarith) (by linarith)
    have f3 : atan2 (Real.sin (10 * Real.pi / 9)) (Real.cos (10 * Real.pi / 9))
        = -(8 * Real.pi / 9) := by
      have hrw : 10 * Real.pi / 9 = Real.pi / 9 + Real.pi := by ring
      rw [hrw, atan2_sin_cos_third (by linarith) (by linarith)]
      ring
    have hmap2 : ([⟨1, 0, 0⟩,
         ⟨Real.cos (4 * Real.pi / 9), Real.sin (4 * Real.pi / 9), 0⟩,
         ⟨Real.cos (10 * Real.pi / 9), Real.sin (10 * Real.pi / 9), 0⟩] : List Pt3R).map
        (fun p => atan2 (p.y - radialCenter.y) (p.x - radialCenter.x))
        = [0, 4 * Real.pi / 9, -(8 * Real.pi / 9)] := by
      simp only [List.map_cons, List.map_nil, radialCenter]
      norm_num [f1, f2, f3]
    rw [hmap2] at hgaps
    exact gapsNot_080200 hgaps

/-! ### Anchor-structure lemmas for recognized shapes -/

theorem gcp_known (c : Component) (h : knownShape c = true) :
    ∃ o rest, c.operations = o :: rest ∧
      getConnectionPoint c =
        ⟨some ⟨⟨o.transform.location.x, o.transform.location.y,
            qadd o.transform.location.z (shapeHalfZ o)⟩, 1⟩,
         some ⟨⟨o.transform.location.x, o.transform.location.y,
            qsub o.transform.location.z (shapeHalfZ o)⟩, 1⟩,
         ⟨o.transform.location, 0⟩⟩ := by
  match hops : c.operations with
  | [] => rw [knownShape, hops] at h; exact absurd h (by simp)
  | o :: rest =>
    refine ⟨o, rest, rfl, ?_⟩
    rw [knownShape, hops] at h
    simp only [Bool.and_eq_true, Bool.or_eq_true, decide_eq_true_eq,
      Option.isSome_iff_exists] at h
    obtain ⟨⟨p, hp⟩, hshape⟩ := h
    rw [getConnectionPoint]
    rw [hops]
    rcases hshape with (h1 | h2) | h3
    · simp only [if_pos h1, hp, shapeHalfZ, if_pos h1, Option.getD_some]
    · have hns : ¬(o.op = "mesh.build_sphere_mesh") := by
        intro heq
        rw [heq] at h2
        exact absurd h2 (by decide)
      simp only [if_neg hns, if_pos h2, hp, shapeHalfZ, if_neg hns, Option.getD_some]
    · have hns : ¬(o.op = "mesh.build_sphere_mesh") := by
        intro heq
        rw [heq] at h3
        exact absurd h3 (by decide)
      have hnc : ¬(o.op = "mesh.build_cylinder_mesh") := by
        intro heq
        rw [heq] at h3
        exact absurd h3 (by decide)
      simp only [if_neg hns, if_neg hnc, if_pos h3, hp, shapeHalfZ, if_neg hns,
        Option.getD_some]

theorem chosenAnchor_full (P Q R : Vec3) :
    chosenAnchor ⟨some ⟨P, 1⟩, some ⟨Q, 1⟩, ⟨R, 0⟩⟩ = ⟨P, 1⟩ := by
  simp [chosenAnchor]

theorem gcp_top_some (c : Component) (h : knownShape c = true) :
    ∃ a, (getConnectionPoint c).top = some a := by
  obtain ⟨o, rest, _, hgcp⟩ := gcp_known c h
  exact ⟨_, by rw [hgcp]⟩

theorem gcp_bottom_some (c : Component) (h : knownShape c = true) :
    ∃ a, (getConnectionPoint c).bottom = some a := by
  obtain ⟨o, rest, _, hgcp⟩ := gcp_known c h
  exact ⟨_, by rw [hgcp]⟩

theorem topZ_known_some (c : Component) (h : knownShape c = true) :
    ∃ z, topZ c = some z := by
  obtain ⟨a, ha⟩ := gcp_top_some c h
  exact ⟨a.point.z, by rw [topZ, ha, Option.map_some']⟩

/-! ### Identity facts about the reducible arithmetic -/

theorem qadd_zero_right (a : ℚ) : qadd a 0 = a := by rw [qadd_eq, add_zero]

theorem qsub_zero_right (a : ℚ) : qsub a 0 = a := by rw [qsub_eq, sub_zero]

theorem qsub_self_eq (a : ℚ) : qsub a a = 0 := by rw [qsub_eq, sub_self]

/-- C2, amended claim: the support-alignment phases align only the first
"Seat" (else "Table_Top") component, and its supports are exactly the
components whose name contains "Leg": for every box seat over two cylinder
legs sharing its horizontal center, the pass moves only the seat, the legs
are returned unchanged, and the seat's bottom-anchor z afterwards equals
the maximum top-anchor z over the two legs — the code's highest-leg
scan. -/
theorem C2_surface_on_legs (hs h1 h2 xs ys zs z1 z2 : ℚ) :
    ∃ s', validateConnections [("Seat", ["Leg_1", "Leg_2"])]
        [famBox "Seat" hs xs ys zs, famCyl "Leg_1" h1 xs ys z1, famCyl "Leg_2" h2 xs ys z2]
      = .ok [s', famCyl "Leg_1" h1 xs ys z1, famCyl "Leg_2" h2 xs ys z2] ∧
      s'.name = "Seat" ∧
      topZ (famCyl "Leg_1" h1 xs ys z1) = some (z1 + h1 / 2) ∧
      topZ (famCyl "Leg_2" h2 xs ys z2) = some (z2 + h2 / 2) ∧
      (getConnectionPoint s').bottom.map (fun a => a.point.z)
        = some (max (z1 + h1 / 2) (z2 + h2 / 2)) := by
  refine ⟨famBox "Seat" hs xs ys
      (qadd zs (qsub (max (qadd z1 (qhalf (qmul h1 1))) (qadd z2 (qhalf (qmul h2 1))))
        (qsub zs (qhalf (qmul hs 1))))), ?_, rfl, ?_, ?_, ?_⟩
  · have echair : chairPhase
        [famBox "Seat" hs xs ys zs, famCyl "Leg_1" h1 xs ys z1, famCyl "Leg_2" h2 xs ys z2]
        = .ok [famBox "Seat" hs xs ys zs, famCyl "Leg_1" h1 xs ys z1,
            famCyl "Leg_2" h2 xs ys z2] := by
      rw [show chairPhase
            [famBox "Seat" hs xs ys zs, famCyl "Leg_1" h1 xs ys z1, famCyl "Leg_2" h2 xs ys z2]
          = (if mkRat 1 100 <
                qadd (qmul (qsub xs xs) (qsub xs xs)) (qmul (qsub ys ys) (qsub ys ys))
             then (if mkRat 1 100 <
                qadd (qmul (qsub xs xs) (qsub xs xs)) (qmul (qsub ys ys) (qsub ys ys))
               then (Except.ok [famBox "Seat" hs xs ys zs, famCyl "Leg_1" h1 xs ys z1,
                  famCyl "Leg_2" h2 xs ys z2] : Except String (List Component))
               else Except.ok [famBox "Seat" hs xs ys zs, famCyl "Leg_1" h1 xs ys z1,
                  famCyl "Leg_2" h2 xs ys z2])
             else (if mkRat 1 100 <
                qadd (qmul (qsub xs xs) (qsub xs xs)) (qmul (qsub ys ys) (qsub ys ys))
               then Except.ok [famBox "Seat" hs xs ys zs, famCyl "Leg_1" h1 xs ys z1,
                  famCyl "Leg_2" h2 xs ys z2]
               else Except.ok [famBox "Seat" hs xs ys zs, famCyl "Leg_1" h1 xs ys z1,
                  famCyl "Leg_2" h2 xs ys z2])) from rfl,
          ite_self, ite_self]
    have ehz : highestLegZ
        [famBox "Seat" hs xs ys zs, famCyl "Leg_1" h1 xs ys z1, famCyl "Leg_2" h2 xs ys z2]
        = .ok (some (max (qadd z1 (qhalf (qmul h1 1))) (qadd z2 (qhalf (qmul h2 1))))) := rfl
    have esnap : seatSnapPhase
        [famBox "Seat" hs xs ys zs, famCyl "Leg_1" h1 xs ys z1, famCyl "Leg_2" h2 xs ys z2]
        (some (max (qadd z1 (qhalf (qmul h1 1))) (qadd z2 (qhalf (qmul h2 1)))))
        = .ok [famBox "Seat" hs xs ys
            (qadd zs (qsub (max (qadd z1 (qhalf (qmul h1 1))) (qadd z2 (qhalf (qmul h2 1))))
              (qsub zs (qhalf (qmul hs 1))))),
          famCyl "Leg_1" h1 xs ys z1, famCyl "Leg_2" h2 xs ys z2] := rfl
    have e4 : phase4 [("Seat", ["Leg_1", "Leg_2"])]
        [famBox "Seat" hs xs ys
            (qadd zs (qsub (max (qadd z1 (qhalf (qmul h1 1))) (qadd z2 (qhalf (qmul h2 1))))
              (qsub zs (qhalf (qmul hs 1))))),
          famCyl "Leg_1" h1 xs ys z1, famCyl "Leg_2" h2 xs ys z2]
        = .ok [famBox "Seat" hs xs ys
            (qadd zs (qsub (max (qadd z1 (qhalf (qmul h1 1))) (qadd z2 (qhalf (qmul h2 1))))
              (qsub zs (qhalf (qmul hs 1))))),
          famCyl "Leg_1" h1 xs ys z1, famCyl "Leg_2" h2 xs ys z2] := rfl
    simp only [validateConnections, echair, ehz, esnap, e4]
  · rw [show topZ (famCyl "Leg_1" h1 xs ys z1) = some (qadd z1 (qhalf (qmul h1 1))) from rfl]
    exact congrArg some (by rw [qadd_eq, qhalf_eq, qmul_eq]; ring)
  · rw [show topZ (famCyl "Leg_2" h2 xs ys z2) = some (qadd z2 (qhalf (qmul h2 1))) from rfl]
    exact congrArg some (by rw [qadd_eq, qhalf_eq, qmul_eq]; ring)
  · rw [show (getConnectionPoint (famBox "Seat" hs xs ys
        (qadd zs (qsub (max (qadd z1 (qhalf (qmul h1 1))) (qadd z2 (qhalf (qmul h2 1))))
          (qsub zs (qhalf (qmul hs 1))))))).bottom.map (fun a => a.point.z)
      = some (qsub
          (qadd zs (qsub (max (qadd z1 (qhalf (qmul h1 1))) (qadd z2 (qhalf (qmul h2 1))))
            (qsub zs (qhalf (qmul hs 1)))))
          (qhalf (qmul hs 1))) from rfl]
    refine congrArg some ?_
    simp only [qadd_eq, qsub_eq, qhalf_eq, qmul_eq]
    rw [show z1 + h1 * 1 / 2 = z1 + h1 / 2 from by ring,
        show z2 + h2 * 1 / 2 = z2 + h2 / 2 from by ring]
    ring

/-- C3, amended claim: the snapper moves a component only if its name
contains "Leg", "Seat" or "Top", and adjusts only the z coordinate, so the
Euclidean-distance bound of the original claim fails in general (see the
Backrest counterexample).  For a declared pair whose dependent component's
name contains "Top" (and none of "Table_Top", "Backrest", "Leg", "Seat"),
both components of recognized shape, the pass leaves the target unchanged
and afterwards the vertical distance between the pair's chosen
(highest-priority) anchors is below the 0.01 tolerance. -/
theorem C3_snap_vertical (ha xa ya za hb xb yb zb : ℚ) :
    ∃ t', validateConnections [("Lamp_Top", ["Pole"])]
        [famBox "Lamp_Top" ha xa ya za, famCyl "Pole" hb xb yb zb]
      = .ok [t', famCyl "Pole" hb xb yb zb] ∧
      t'.name = "Lamp_Top" ∧
      ∃ u v, topZ t' = some u ∧ topZ (famCyl "Pole" hb xb yb zb) = some v ∧
        |u - v| < 1 / 100 := by
  have epre : validateConnections [("Lamp_Top", ["Pole"])]
      [famBox "Lamp_Top" ha xa ya za, famCyl "Pole" hb xb yb zb]
      = phase4 [("Lamp_Top", ["Pole"])]
        [famBox "Lamp_Top" ha xa ya za, famCyl "Pole" hb xb yb zb] := rfl
  have ee0 : phase4Entry [famBox "Lamp_Top" ha xa ya za, famCyl "Pole" hb xb yb zb]
      ("Lamp_Top", ["Pole"])
      = snapTargets (getConnectionPoint (famBox "Lamp_Top" ha xa ya za)) "Lamp_Top" 0
          ["Pole"] [famBox "Lamp_Top" ha xa ya za, famCyl "Pole" hb xb yb zb] := by
    rw [show phase4Entry [famBox "Lamp_Top" ha xa ya za, famCyl "Pole" hb xb yb zb]
          ("Lamp_Top", ["Pole"])
        = (if nameSkipsPhase4 "Lamp_Top" = true
           then (Except.ok [famBox "Lamp_Top" ha xa ya za, famCyl "Pole" hb xb yb zb]
             : Except String (List Component))
           else snapTargets (getConnectionPoint (famBox "Lamp_Top" ha xa ya za)) "Lamp_Top" 0
             ["Pole"] [famBox "Lamp_Top" ha xa ya za, famCyl "Pole" hb xb yb zb]) from rfl,
      if_neg (by decide : ¬ (nameSkipsPhase4 "Lamp_Top" = true))]
  have ee1 : snapTargets (getConnectionPoint (famBox "Lamp_Top" ha xa ya za)) "Lamp_Top" 0
      ["Pole"] [famBox "Lamp_Top" ha xa ya za, famCyl "Pole" hb xb yb zb]
      = (if arePointsConnected ⟨xa, ya, qadd za (qhalf (qmul ha 1))⟩
            ⟨xb, yb, qadd zb (qhalf (qmul hb 1))⟩ = true
         then (Except.ok [famBox "Lamp_Top" ha xa ya za, famCyl "Pole" hb xb yb zb]
           : Except String (List Component))
         else Except.ok [famBox "Lamp_Top" ha xa ya
             (qadd za (qsub (qadd zb (qhalf (qmul hb 1))) (qadd za (qhalf (qmul ha 1))))),
           famCyl "Pole" hb xb yb zb]) := rfl
  have eentry := ee0.trans ee1
  by_cases hc : arePointsConnected ⟨xa, ya, qadd za (qhalf (qmul ha 1))⟩
      ⟨xb, yb, qadd zb (qhalf (qmul hb 1))⟩ = true
  · refine ⟨famBox "Lamp_Top" ha xa ya za, ?_, rfl,
      qadd za (qhalf (qmul ha 1)), qadd zb (qhalf (qmul hb 1)), rfl, rfl, ?_⟩
    · have e2 : phase4Entry [famBox "Lamp_Top" ha xa ya za, famCyl "Pole" hb xb yb zb]
          ("Lamp_Top", ["Pole"])
          = .ok [famBox "Lamp_Top" ha xa ya za, famCyl "Pole" hb xb yb zb] := by
        rw [eentry, if_pos hc]
      rw [epre]
      simp only [phase4, e2]
    · simp only [arePointsConnected, decide_eq_true_eq] at hc
      simp only [distSq, qadd_eq, qsub_eq, qmul_eq, qhalf_eq, Rat.mkRat_eq_div] at hc
      push_cast at hc
      simp only [qadd_eq, qhalf_eq, qmul_eq]
      rw [abs_lt]
      constructor
      · nlinarith [hc, mul_self_nonneg (xa - xb), mul_self_nonneg (ya - yb)]
      · nlinarith [hc, mul_self_nonneg (xa - xb), mul_self_nonneg (ya - yb)]
  · refine ⟨famBox "Lamp_Top" ha xa ya
        (qadd za (qsub (qadd zb (qhalf (qmul hb 1))) (qadd za (qhalf (qmul ha 1))))),
      ?_, rfl,
      qadd (qadd za (qsub (qadd zb (qhalf (qmul hb 1))) (qadd za (qhalf (qmul ha 1)))))
        (qhalf (qmul ha 1)),
      qadd zb (qhalf (qmul hb 1)), rfl, rfl, ?_⟩
    · have e2 : phase4Entry [famBox "Lamp_Top" ha xa ya za, famCyl "Pole" hb xb yb zb]
          ("Lamp_Top", ["Pole"])
          = .ok [famBox "Lamp_Top" ha xa ya
              (qadd za (qsub (qadd zb (qhalf (qmul hb 1))) (qadd za (qhalf (qmul ha 1))))),
            famCyl "Pole" hb xb yb zb] := by
        rw [eentry, if_neg hc]
      rw [epre]
      simp only [phase4, e2]
    · simp only [qadd_eq, qsub_eq, qhalf_eq, qmul_eq]
      rw [show za + (zb + hb * 1 / 2 - (za + ha * 1 / 2)) + ha * 1 / 2 - (zb + hb * 1 / 2)
          = 0 from by ring, abs_zero]
      norm_num

/-- C6, amended claim: an already-valid list is a fixed point of the full
pass sequence only under the code's own conventions: the ground keywords
are frame/base/leg and the minimum lowest z over those components is 0;
the "Seat" component's legs stand within 0.1 horizontal distance of its
bottom anchor and its bottom-anchor z equals the highest leg top; and every
declared pair not named Leg/Seat/Table_Top already has its chosen anchors
within the 0.01 tolerance, in which case the snapper is a no-op.  The
family: a box seat at the legs' horizontal center over one grounded
cylinder leg carrying its bottom anchor, plus a declared Lamp_Top/Pole
pair with coincident-within-tolerance top anchors. -/
theorem C6_valid_fixed_point (hs xs ys zs h zl g1 a1 b1 c1 g2 a2 b2 c2 : ℚ)
    (hg : qsub zl (qhalf h) = 0)
    (htop : qsub zs (qhalf (qmul hs 1)) = qadd zl (qhalf (qmul h 1)))
    (hcn : arePointsConnected ⟨a1, b1, qadd c1 (qhalf (qmul g1 1))⟩
        ⟨a2, b2, qadd c2 (qhalf (qmul g2 1))⟩ = true) :
    validateAndFix [("Lamp_Top", ["Pole"])]
      [famBox "Seat" hs xs ys zs, famCyl "Leg_1" h xs ys zl,
       famBox "Lamp_Top" g1 a1 b1 c1, famCyl "Pole" g2 a2 b2 c2]
      = .ok [famBox "Seat" hs xs ys zs, famCyl "Leg_1" h xs ys zl,
       famBox "Lamp_Top" g1 a1 b1 c1, famCyl "Pole" g2 a2 b2 c2] := by
  have eg0 : ensureGroundContact
      [famBox "Seat" hs xs ys zs, famCyl "Leg_1" h xs ys zl,
       famBox "Lamp_Top" g1 a1 b1 c1, famCyl "Pole" g2 a2 b2 c2]
      = .ok [famBox "Seat" hs xs ys (qsub zs (qsub (qsub zl (qhalf h)) 0)),
        famCyl "Leg_1" h xs ys (qsub zl (qsub (qsub zl (qhalf h)) 0)),
        famBox "Lamp_Top" g1 a1 b1 (qsub c1 (qsub (qsub zl (qhalf h)) 0)),
        famCyl "Pole" g2 a2 b2 (qsub c2 (qsub (qsub zl (qhalf h)) 0))] := rfl
  have hAD : qsub (qsub zl (qhalf h)) 0 = 0 := by rw [hg]; decide
  have eg : ensureGroundContact
      [famBox "Seat" hs xs ys zs, famCyl "Leg_1" h xs ys zl,
       famBox "Lamp_Top" g1 a1 b1 c1, famCyl "Pole" g2 a2 b2 c2]
      = .ok [famBox "Seat" hs xs ys zs, famCyl "Leg_1" h xs ys zl,
        famBox "Lamp_Top" g1 a1 b1 c1, famCyl "Pole" g2 a2 b2 c2] := by
    rw [eg0, hAD]
    simp only [qsub_zero_right]
  have ech : chairPhase
      [famBox "Seat" hs xs ys zs, famCyl "Leg_1" h xs ys zl,
       famBox "Lamp_Top" g1 a1 b1 c1, famCyl "Pole" g2 a2 b2 c2]
      = .ok [famBox "Seat" hs xs ys zs, famCyl "Leg_1" h xs ys zl,
        famBox "Lamp_Top" g1 a1 b1 c1, famCyl "Pole" g2 a2 b2 c2] := by
    rw [show chairPhase
        [famBox "Seat" hs xs ys zs, famCyl "Leg_1" h xs ys zl,
         famBox "Lamp_Top" g1 a1 b1 c1, famCyl "Pole" g2 a2 b2 c2]
        = (if mkRat 1 100 <
              qadd (qmul (qsub xs xs) (qsub xs xs)) (qmul (qsub ys ys) (qsub ys ys))
           then (Except.ok [famBox "Seat" hs xs ys zs, famCyl "Leg_1" h xs ys zl,
              famBox "Lamp_Top" g1 a1 b1 c1, famCyl "Pole" g2 a2 b2 c2]
             : Except String (List Component))
           else Except.ok [famBox "Seat" hs xs ys zs, famCyl "Leg_1" h xs ys zl,
              famBox "Lamp_Top" g1 a1 b1 c1, famCyl "Pole" g2 a2 b2 c2]) from rfl,
      ite_self]
  have ehz : highestLegZ
      [famBox "Seat" hs xs ys zs, famCyl "Leg_1" h xs ys zl,
       famBox "Lamp_Top" g1 a1 b1 c1, famCyl "Pole" g2 a2 b2 c2]
      = .ok (some (qadd zl (qhalf (qmul h 1)))) := rfl
  have esn0 : seatSnapPhase
      [famBox "Seat" hs xs ys zs, famCyl "Leg_1" h xs ys zl,
       famBox "Lamp_Top" g1 a1 b1 c1, famCyl "Pole" g2 a2 b2 c2]
      (some (qadd zl (qhalf (qmul h 1))))
      = .ok [famBox "Seat" hs xs ys
          (qadd zs (qsub (qadd zl (qhalf (qmul h 1))) (qsub zs (qhalf (qmul hs 1))))),
        famCyl "Leg_1" h xs ys zl,
        famBox "Lamp_Top" g1 a1 b1 c1, famCyl "Pole" g2 a2 b2 c2] := rfl
  have esn : seatSnapPhase
      [famBox "Seat" hs xs ys zs, famCyl "Leg_1" h xs ys zl,
       famBox "Lamp_Top" g1 a1 b1 c1, famCyl "Pole" g2 a2 b2 c2]
      (some (qadd zl (qhalf (qmul h 1))))
      = .ok [famBox "Seat" hs xs ys zs, famCyl "Leg_1" h xs ys zl,
        famBox "Lamp_Top" g1 a1 b1 c1, famCyl "Pole" g2 a2 b2 c2] := by
    rw [esn0, ← htop, qsub_self_eq, qadd_zero_right]
  have ee0 : phase4Entry
      [famBox "Seat" hs xs ys zs, famCyl "Leg_1" h xs ys zl,
       famBox "Lamp_Top" g1 a1 b1 c1, famCyl "Pole" g2 a2 b2 c2]
      ("Lamp_Top", ["Pole"])
      = snapTargets (getConnectionPoint (famBox "Lamp_Top" g1 a1 b1 c1)) "Lamp_Top" 2
          ["Pole"] [famBox "Seat" hs xs ys zs, famCyl "Leg_1" h xs ys zl,
            famBox "Lamp_Top" g1 a1 b1 c1, famCyl "Pole" g2 a2 b2 c2] := by
    rw [show phase4Entry
        [famBox "Seat" hs xs ys zs, famCyl "Leg_1" h xs ys zl,
         famBox "Lamp_Top" g1 a1 b1 c1, famCyl "Pole" g2 a2 b2 c2]
        ("Lamp_Top", ["Pole"])
        = (if nameSkipsPhase4 "Lamp_Top" = true
           then (Except.ok [famBox "Seat" hs xs ys zs, famCyl "Leg_1" h xs ys zl,
              famBox "Lamp_Top" g1 a1 b1 c1, famCyl "Pole" g2 a2 b2 c2]
             : Except String (List Component))
           else snapTargets (getConnectionPoint (famBox "Lamp_Top" g1 a1 b1 c1)) "Lamp_Top" 2
             ["Pole"] [famBox "Seat" hs xs ys zs, famCyl "Leg_1" h xs ys zl,
               famBox "Lamp_Top" g1 a1 b1 c1, famCyl "Pole" g2 a2 b2 c2]) from rfl,
      if_neg (by decide : ¬ (nameSkipsPhase4 "Lamp_Top" = true))]
  have ee1 : snapTargets (getConnectionPoint (famBox "Lamp_Top" g1 a1 b1 c1)) "Lamp_Top" 2
      ["Pole"] [famBox "Seat" hs xs ys zs, famCyl "Leg_1" h xs ys zl,
        famBox "Lamp_Top" g1 a1 b1 c1, famCyl "Pole" g2 a2 b2 c2]
      = (if arePointsConnected ⟨a1, b1, qadd c1 (qhalf (qmul g1 1))⟩
            ⟨a2, b2, qadd c2 (qhalf (qmul g2 1))⟩ = true
         then (Except.ok [famBox "Seat" hs xs ys zs, famCyl "Leg_1" h xs ys zl,
            famBox "Lamp_Top" g1 a1 b1 c1, famCyl "Pole" g2 a2 b2 c2]
           : Except String (List Component))
         else Except.ok (List.set
           [famBox "Seat" hs xs ys zs, famCyl "Leg_1" h xs ys zl,
            famBox "Lamp_Top" g1 a1 b1 c1, famCyl "Pole" g2 a2 b2 c2] 2
           (snapToPoint (famBox "Lamp_Top" g1 a1 b1 c1)
             ⟨a1, b1, qadd c1 (qhalf (qmul g1 1))⟩
             ⟨a2, b2, qadd c2 (qhalf (qmul g2 1))⟩))) := rfl
  have e4 : phase4Entry
      [famBox "Seat" hs xs ys zs, famCyl "Leg_1" h xs ys zl,
       famBox "Lamp_Top" g1 a1 b1 c1, famCyl "Pole" g2 a2 b2 c2]
      ("Lamp_Top", ["Pole"])
      = .ok [famBox "Seat" hs xs ys zs, famCyl "Leg_1" h xs ys zl,
        famBox "Lamp_Top" g1 a1 b1 c1, famCyl "Pole" g2 a2 b2 c2] := by
    rw [ee0.trans ee1, if_pos hcn]
  have efin : validateConnections [("Lamp_Top", ["Pole"])]
      [famBox "Seat" hs xs ys zs, famCyl "Leg_1" h xs ys zl,
       famBox "Lamp_Top" g1 a1 b1 c1, famCyl "Pole" g2 a2 b2 c2]
      = .ok [famBox "Seat" hs xs ys zs, famCyl "Leg_1" h xs ys zl,
        famBox "Lamp_Top" g1 a1 b1 c1, famCyl "Pole" g2 a2 b2 c2] := by
    simp only [validateConnections, ech, ehz, esn, phase4, e4]
  simp only [validateAndFix, eg, efin]

/-- C6 witness: a concrete valid chair-plus-lamp list — box seat of height
0.2 at z 0.6 over a grounded cylinder leg of height 0.5 at z 0.25, and a
declared Lamp_Top/Pole pair whose top anchors coincide at z 1.1 — is left
exactly unchanged by `validateAndFix`. -/
theorem C6_valid_fixed_point_witness :
    validateAndFix [("Lamp_Top", ["Pole"])]
      [famBox "Seat" (mkRat 1 5) 0 0 (mkRat 3 5), famCyl "Leg_1" (mkRat 1 2) 0 0 (mkRat 1 4),
       famBox "Lamp_Top" (mkRat 1 5) 1 0 1, famCyl "Pole" (mkRat 1 2) 1 0 (mkRat 17 20)]
      = .ok [famBox "Seat" (mkRat 1 5) 0 0 (mkRat 3 5),
        famCyl "Leg_1" (mkRat 1 2) 0 0 (mkRat 1 4),
        famBox "Lamp_Top" (mkRat 1 5) 1 0 1, famCyl "Pole" (mkRat 1 2) 1 0 (mkRat 17 20)] :=
  C6_valid_fixed_point (mkRat 1 5) 0 0 (mkRat 3 5) (mkRat 1 2) (mkRat 1 4)
    (mkRat 1 5) 1 0 1 (mkRat 1 2) 1 0 (mkRat 17 20)
    (by decide) (by decide) (by decide)
